import Mathlib

/-!
Shallow embedding of the complaint-session lifecycle and AI enrichment
pipeline of the IRC complaint system (LINE webhook handler,
`ComplaintSession` mongoose model, tRPC complaint router, and the AI
tagging service), together with proofs about the specified properties.

Conventions of the embedding:
* The MongoDB store is a `List` of documents in insertion order;
  `findOne` is the first match in that order, and the unique-index
  constraints of the store (`_id`, `complaint_id`, and the analysis
  record's `complaint_session_id`) are modelled by insertion failing on
  a duplicate key.
* `Date.now()` style timestamps are `Nat` milliseconds threaded through
  each event.
* Randomness (nanoid session ids, complaint-id sequence numbers, the
  rotation of acknowledgment texts) is supplied by oracle streams in an
  `Env` record, consumed deterministically.
* JavaScript exceptions are `Except`; the `try/catch` blocks of the
  source become explicit `match`es on the `Except` value.
-/

namespace Irc

/-- Direction of a chat-log entry (`direction` enum of `ChatLogSchema`). -/
inductive Direction where
  | user | bot | system
deriving DecidableEq, Repr

/-- Message type of a chat-log entry (`message_type` enum of `ChatLogSchema`). -/
inductive MsgType where
  | text | image | file | command | timeout
deriving DecidableEq, Repr

/-- Session status (`status` enum of `ComplaintSessionSchema`). -/
inductive Status where
  | open' | submitted | cancelled
deriving DecidableEq, Repr

/-- One embedded chat-log entry of a complaint session. -/
structure ChatEntry where
  timestamp : Nat
  direction : Direction
  message_type : MsgType
  message : String
deriving DecidableEq, Repr

/-- A `complaint_sessions` document. -/
structure Session where
  sessionId : String
  complaint_id : String
  user_id : String
  status : Status
  start_time : Nat
  end_time : Option Nat
  department : Option String
  chat_logs : List ChatEntry
deriving DecidableEq, Repr

/-- An `employees` document (the fields the embedded code reads). -/
structure Employee where
  id : String
  display_name : String
  department : Option String
deriving DecidableEq, Repr

/-- Predicate for `ComplaintSession.findActiveSession`'s filter:
the session belongs to `u` and has `status: 'open'`. -/
def isOpenFor (u : String) (s : Session) : Prop :=
  s.user_id = u ∧ s.status = Status.open'

instance (u : String) (s : Session) : Decidable (isOpenFor u s) := by
  unfold isOpenFor; infer_instance

/-- `ComplaintSession.findActiveSession(userId)`: first stored session
with `user_id = u` and `status = 'open'`. -/
def findActiveSession (u : String) : List Session → Option Session
  | [] => none
  | s :: rest => if isOpenFor u s then some s else findActiveSession u rest

/-- Number of open sessions a user has in the store (proof-side measure
for the one-open-session-per-user invariant). -/
def countOpen (u : String) : List Session → Nat
  | [] => 0
  | s :: rest => (if isOpenFor u s then 1 else 0) + countOpen u rest

/-- Number of user-authored content entries of a session: entries with
`direction = 'user'` whose type is not a command (nor a system timeout
marker) — the "user-authored content beyond the initiating command". -/
def userContentCount (s : Session) : Nat :=
  (s.chat_logs.filter (fun e =>
    decide (e.direction = Direction.user) &&
    !decide (e.message_type = MsgType.command) &&
    !decide (e.message_type = MsgType.timeout))).length

/-- `session.addChatLog(direction, messageType, message)`: pushes an
entry unless the 500-entry guard trips, in which case it throws. -/
def addChatLog (s : Session) (e : ChatEntry) : Except Unit Session :=
  if s.chat_logs.length ≥ 500 then Except.error ()
  else Except.ok { s with chat_logs := s.chat_logs ++ [e] }

/-- `session.submit()`: sets `status='submitted'`, `end_time=now`, and
pushes the bot confirmation entry (no length guard in the source). -/
def submitSession (s : Session) (now : Nat) : Session :=
  { s with
    status := Status.submitted
    end_time := some now
    chat_logs := s.chat_logs ++
      [⟨now, Direction.bot, MsgType.text,
        "Your complaint has been submitted. ID: " ++ s.complaint_id⟩] }

/-- `session.cancel()`: sets `status='cancelled'`, `end_time=now`, and
pushes the system cancellation note (no length guard in the source). -/
def cancelSession (s : Session) (now : Nat) : Session :=
  { s with
    status := Status.cancelled
    end_time := some now
    chat_logs := s.chat_logs ++
      [⟨now, Direction.system, MsgType.text,
        "Session cancelled due to inactivity. ID: " ++ s.complaint_id⟩] }

/-- Writing back a fetched-and-mutated document (`session.save()`):
replace the stored document with the same `_id`. -/
def updateSession (l : List Session) (s' : Session) : List Session :=
  l.map (fun s => if s.sessionId = s'.sessionId then s' else s)

/-- Inserting a new document; the store's unique `_id` index makes the
insert fail when the `_id` already exists. -/
def insertSession (l : List Session) (s : Session) : Except Unit (List Session) :=
  if (l.filter (fun t => decide (t.sessionId = s.sessionId))).length = 0
  then Except.ok (l ++ [s]) else Except.error ()

/-- Oracles for the nondeterministic inputs of the source: generated
session ids, generated complaint ids, and LINE profile display names. -/
structure Env where
  sessionIds : Nat → String
  complaintIds : Nat → String
  profileName : String → String

/-- The complaint-id collision retry loop of `createNewSession`: the
current candidate is checked against the store; on collision the next
candidate from the oracle replaces it, at most five times, and the
final candidate is returned unchecked. -/
def complaintIdLoop (l : List Session) (gen : Nat → String) : Nat → Nat → String
  | idx, 0 => gen idx
  | idx, fuel + 1 =>
    if (l.filter (fun s => decide (s.complaint_id = gen idx))).length ≠ 0
    then complaintIdLoop l gen (idx + 1) fuel
    else gen idx

/-- Result of `ComplaintSession.createNewSession`: the session (existing
or new), the updated store plus id-counter, and whether a save failed. -/
structure CreateResult where
  session : Session
  sessions : List Session
  counter : Nat
  failed : Bool

/-- `ComplaintSession.createNewSession(userId, department)`: reuse the
existing open session if one exists, otherwise generate ids (with the
complaint-id uniqueness retry) and insert a session whose transcript is
seeded with the `/complain` command entry. -/
def createNewSession (env : Env) (l : List Session) (ctr : Nat)
    (userId : String) (department : Option String) (now : Nat) : CreateResult :=
  match findActiveSession userId l with
  | some s => ⟨s, l, ctr, false⟩
  | none =>
    let sid := env.sessionIds ctr
    let cid := complaintIdLoop l env.complaintIds ctr 5
    let s : Session :=
      { sessionId := sid
        complaint_id := cid
        user_id := userId
        status := Status.open'
        start_time := now
        end_time := none
        department := department
        chat_logs := [⟨now, Direction.user, MsgType.command, "/complain"⟩] }
    match insertSession l s with
    | Except.ok l' => ⟨s, l', ctr + 1, false⟩
    | Except.error _ => ⟨s, l, ctr + 1, true⟩

/-! ## Analysis record (`AIComplaintTag`) sanitized value shapes -/

/-- Sanitized `sentiment_analysis` (scores are `none` when the JS value
is `NaN`). -/
structure SentimentOut where
  overall_sentiment : String
  sentiment_score : Option ℚ
  confidence_level : Option ℚ
deriving DecidableEq, Repr

/-- Sanitized `issue_classification`. -/
structure ClassificationOut where
  primary_category : String
  secondary_categories : List String
  severity_level : String
  urgency_score : Option ℚ
deriving DecidableEq, Repr

/-- Sanitized keyword entry. -/
structure Keyword where
  word : String
  frequency : Int
  relevance_score : ℚ
deriving DecidableEq, Repr

/-- Sanitized `key_phrases`. -/
structure KeyPhrasesOut where
  keywords : List Keyword
  key_phrases : List String
  emotional_indicators : List String
deriving DecidableEq, Repr

/-- The sanitizer's output record. -/
structure Validated where
  sentiment_analysis : SentimentOut
  issue_classification : ClassificationOut
  key_phrases : KeyPhrasesOut
  ai_summary : String
  recommended_actions : List String
deriving DecidableEq, Repr

/-- An `ai_complaint_tags` document (the fields the embedded code
writes and reads; `processing_time_ms` is wall-clock latency, fixed to
zero in this timeless embedding). -/
structure AITag where
  id : String
  complaint_session_id : String
  complaint_id : String
  user_id : String
  employee_display_name : String
  department : Option String
  sentiment_analysis : SentimentOut
  issue_classification : ClassificationOut
  key_phrases : KeyPhrasesOut
  complaint_start_time : Nat
  complaint_end_time : Option Nat
  message_count : Nat
  complaint_text_length : Nat
  model_version : String
  processing_time_ms : Nat
  ai_summary : String
  recommended_actions : List String
deriving DecidableEq, Repr

/-- Shape returned by `getSummaryForDashboard`. -/
structure DashboardSummary where
  complaint_id : String
  employee_name : String
  department : Option String
  sentiment : String
  sentiment_score : Option ℚ
  primary_issue : String
  severity : String
  urgency_score : Option ℚ
  complaint_date : Nat
  ai_summary : String
  message_count : Nat
deriving DecidableEq, Repr

/-- `aiTag.getSummaryForDashboard()`. -/
def getSummaryForDashboard (t : AITag) : DashboardSummary :=
  { complaint_id := t.complaint_id
    employee_name := t.employee_display_name
    department := t.department
    sentiment := t.sentiment_analysis.overall_sentiment
    sentiment_score := t.sentiment_analysis.sentiment_score
    primary_issue := t.issue_classification.primary_category
    severity := t.issue_classification.severity_level
    urgency_score := t.issue_classification.urgency_score
    complaint_date := t.complaint_start_time
    ai_summary := t.ai_summary
    message_count := t.message_count }

/-- Inserting an analysis record; the unique index on
`complaint_session_id` (1:1 with sessions) makes a duplicate insert
fail. -/
def insertTag (l : List AITag) (t : AITag) : Except Unit (List AITag) :=
  if (l.filter (fun x => decide (x.complaint_session_id = t.complaint_session_id))).length = 0
  then Except.ok (l ++ [t]) else Except.error ()

/-! ## LINE webhook handler (`LineWebhookHandler`) -/

/-- Observable outbound effects of the webhook handler: `reply_message`
and `push_message` calls, in emission order. -/
inductive Effect where
  | reply (token msg : String)
  | push (userId msg : String)
deriving DecidableEq, Repr

/-- Global state the embedded handlers act on: the two collections the
claims concern, the employee registry, the in-process timeout map
(`activeComplaintSessions`, modelled as user ↦ armed deadline), and the
consumption counter of the id oracles. -/
structure SysState where
  sessions : List Session
  employees : List Employee
  tags : List AITag
  timers : List (String × Nat)
  counter : Nat
deriving Repr

/-- Replace (never stack) a user's timer with a fresh deadline
(`setup_session_timeout`: clear, then `setTimeout` for 10 minutes). -/
def timerSet (ts : List (String × Nat)) (u : String) (deadline : Nat) :
    List (String × Nat) :=
  (u, deadline) :: ts.filter (fun p => decide (p.1 ≠ u))

/-- `clear_session_timeout`: drop the user's timer if present. -/
def timerClear (ts : List (String × Nat)) (u : String) : List (String × Nat) :=
  ts.filter (fun p => decide (p.1 ≠ u))

/-- Ten minutes in milliseconds (`10 * 60 * 1000`). -/
def timeoutMs : Nat := 600000

/-- Reply when `/complain` arrives while a session is already open
(the existing-session branch of `start_complaint_session`). -/
def existingSessionMsg (cid : String) : String :=
  "คุณมีการร้องเรียนที่ยังไม่เสร็จสิ้น (" ++ cid ++ ")\n        \nกรุณาส่งข้อความเพิ่มเติมหรือพิมพ์ \"/submit\" เพื่อส่งร้องเรียนนี้\n\nหากต้องการเริ่มร้องเรียนใหม่ กรุณาส่งร้องเรียนเก่าก่อน"

/-- Acknowledgment sent when a new session starts. -/
def startMsg (cid : String) : String :=
  "✅ เริ่มการร้องเรียนแล้ว\nรหัสการร้องเรียน: " ++ cid ++ "\n\n🗨️ กรุณาส่งรายละเอียดการร้องเรียนของคุณ\n📝 คุณสามารถส่งข้อความได้หลายครั้ง\n📤 เมื่อเสร็จสิ้นให้พิมพ์ \"/submit\" เพื่อส่งร้องเรียน\n\n⏰ เซสชันจะหมดอายุใน 10 นาที หากไม่มีการตอบกลับ"

/-- Reply when `/submit` arrives with no open session. -/
def noActiveMsg : String :=
  "ไม่พบการร้องเรียนที่กำลังดำเนินการ\n\nหากต้องการเริ่มร้องเรียนใหม่ กรุณาพิมพ์ \"/complain\""

/-- Confirmation sent by `submit_complaint_session`. -/
def submitMsg (cid : String) : String :=
  "✅ ส่งร้องเรียนเรียบร้อยแล้ว\nรหัสการร้องเรียน: " ++ cid ++ "\n\n📋 ทีมงานจะตรวจสอบและติดตามผลภายใน 24-48 ชั่วโมง\n🔍 ตรวจสอบสถานะได้ด้วยคำสั่ง \"สถานะ " ++ cid ++ "\"\n\nขอบคุณที่แจ้งให้เราทราบ 🙏"

/-- Push notification of `handle_session_timeout`'s auto-submit branch. -/
def timeoutPushMsg (cid : String) : String :=
  "⏰ การร้องเรียนของคุณถูกส่งอัตโนมัติเนื่องจากไม่มีการตอบกลับ\nรหัสการร้องเรียน: " ++ cid ++ "\n\nทีมงานจะตรวจสอบและติดตามผลต่อไป 📋"

/-- Generic apologetic reply of `send_error_message`. -/
def errorMsg : String :=
  "ขออภัยค่ะ เกิดข้อผิดพลาดชั่วคราว 😔\n\nกรุณาลองใหม่อีกครั้งในอีกสักครู่ \nหากปัญหายังคงเกิดขึ้น กรุณาติดต่อทีมงานค่ะ"

/-- The rotation of acknowledgment texts of
`acknowledge_complaint_message`. -/
def acknowledgments : List String :=
  ["📝 ได้รับข้อมูลแล้ว กรุณาส่งข้อมูลเพิ่มเติมหรือพิมพ์ \"/submit\" เมื่อเสร็จสิ้น",
   "✅ รับทราบ คุณสามารถส่งรายละเอียดเพิ่มเติมได้",
   "📋 บันทึกแล้ว ส่งข้อมูลเพิ่มเติมหรือพิมพ์ \"/submit\" เพื่อส่งร้องเรียน"]

/-- `start_complaint_session(replyToken, userId, timestamp)`. -/
def start_complaint_session (env : Env) (st : SysState)
    (replyToken userId : String) (now : Nat) : SysState × List Effect :=
  match findActiveSession userId st.sessions with
  | some s => (st, [Effect.reply replyToken (existingSessionMsg s.complaint_id)])
  | none =>
    let department := ((st.employees.find? (fun e => decide (e.id = userId))).map
      (fun e => e.department)).getD none
    let r := createNewSession env st.sessions st.counter userId department now
    let st1 : SysState := { st with sessions := r.sessions, counter := r.counter }
    if r.failed then (st1, [Effect.reply replyToken errorMsg])
    else
      match addChatLog r.session ⟨now, Direction.user, MsgType.command, "/complain"⟩ with
      | Except.error _ => (st1, [Effect.reply replyToken errorMsg])
      | Except.ok s2 =>
        let st2 := { st1 with sessions := updateSession st1.sessions s2 }
        let st3 := { st2 with timers := timerSet st2.timers userId (now + timeoutMs) }
        let msg := startMsg r.session.complaint_id
        match addChatLog s2 ⟨now, Direction.bot, MsgType.text, msg⟩ with
        | Except.error _ =>
          (st3, [Effect.reply replyToken msg, Effect.reply replyToken errorMsg])
        | Except.ok s3 =>
          ({ st3 with sessions := updateSession st3.sessions s3 },
           [Effect.reply replyToken msg])

/-- `submit_complaint_session(replyToken, userId, timestamp)`.  Note the
source has no insufficient-detail check on this path: any open session
is submitted. -/
def submit_complaint_session (st : SysState)
    (replyToken userId : String) (now : Nat) : SysState × List Effect :=
  match findActiveSession userId st.sessions with
  | none => (st, [Effect.reply replyToken noActiveMsg])
  | some s =>
    match addChatLog s ⟨now, Direction.user, MsgType.command, "/submit"⟩ with
    | Except.error _ => (st, [Effect.reply replyToken errorMsg])
    | Except.ok s2 =>
      let s3 := submitSession s2 now
      let st1 := { st with sessions := updateSession st.sessions s3 }
      let st2 := { st1 with timers := timerClear st1.timers userId }
      let msg := submitMsg s.complaint_id
      match addChatLog s3 ⟨now, Direction.bot, MsgType.text, msg⟩ with
      | Except.error _ =>
        (st2, [Effect.reply replyToken msg, Effect.reply replyToken errorMsg])
      | Except.ok s4 =>
        ({ st2 with sessions := updateSession st2.sessions s4 },
         [Effect.reply replyToken msg])

/-- `add_message_to_session(session, direction, messageType, message,
timestamp)`: append the entry; on success a user-direction entry re-arms
the timer; an append failure is caught and logged only. -/
def add_message_to_session (st : SysState) (s : Session)
    (direction : Direction) (messageType : MsgType) (message : String)
    (now : Nat) : SysState :=
  match addChatLog s ⟨now, direction, messageType, message⟩ with
  | Except.error _ => st
  | Except.ok s2 =>
    let st1 := { st with sessions := updateSession st.sessions s2 }
    if direction = Direction.user
    then { st1 with timers := timerSet st1.timers s.user_id (now + timeoutMs) }
    else st1

/-- `handle_session_timeout(userId)`: auto-submit when the transcript
has more than one entry (with a system timeout note and a push
notification), otherwise cancel; finally clear the timer.  The append
of the timeout note can throw, in which case the outer catch leaves the
session and the timer untouched. -/
def handle_session_timeout (st : SysState) (userId : String) (now : Nat) :
    SysState × List Effect :=
  match findActiveSession userId st.sessions with
  | none => ({ st with timers := timerClear st.timers userId }, [])
  | some s =>
    if s.chat_logs.length > 1 then
      match addChatLog s ⟨now, Direction.system, MsgType.timeout,
          "Session auto-submitted due to 10-minute timeout"⟩ with
      | Except.error _ => (st, [])
      | Except.ok s2 =>
        let s3 := submitSession s2 now
        let st1 := { st with sessions := updateSession st.sessions s3 }
        ({ st1 with timers := timerClear st1.timers userId },
         [Effect.push userId (timeoutPushMsg s.complaint_id)])
    else
      let s2 := cancelSession s now
      let st1 := { st with sessions := updateSession st.sessions s2 }
      ({ st1 with timers := timerClear st1.timers userId }, [])

/-- `register_user_if_new(userId)`: insert an employee with the LINE
profile display name and a null department when none exists. -/
def register_user_if_new (env : Env) (st : SysState) (userId : String) :
    SysState :=
  match st.employees.find? (fun e => decide (e.id = userId)) with
  | some _ => st
  | none =>
    { st with employees :=
        st.employees ++ [⟨userId, env.profileName userId, none⟩] }

/-- Welcome message of `send_welcome_message` (display name from the
LINE profile lookup). -/
def welcomeMsg (displayName : String) : String :=
  "สวัสดีคะ คุณ" ++ displayName ++ " 👋\n\nยินดีต้อนรับสู่ระบบร้องเรียน IRC Complaint System\n\nคุณสามารถใช้บริการต่างๆ ได้ดังนี้:\n🔸 พิมพ์ \"ร้องเรียน\" เพื่อส่งข้อร้องเรียน\n🔸 พิมพ์ \"สถานะ\" เพื่อตรวจสอบสถานะร้องเรียน\n🔸 พิมพ์ \"ช่วยเหลือ\" เพื่อดูคำแนะนำ\n\nหากมีข้อสงสัยใดๆ สามารถสอบถามได้เสมอค่ะ 😊"

/-- Status-lookup reply of `check_complaint_status` (static text in the
source, marked TODO there). -/
def statusMsg : String :=
  "สถานะการร้องเรียนของคุณ:\n\n🔍 ยังไม่พบข้อร้องเรียนในระบบ\nหากต้องการส่งข้อร้องเรียนใหม่ กรุณาพิมพ์ \"ร้องเรียน\"\n\nหรือหากมีรหัสการร้องเรียน กรุณาแนบรหัสมาด้วย\nเช่น: \"สถานะ C001\""

/-- Help reply of `send_help_message`. -/
def helpMsg : String :=
  "📚 คำแนะนำการใช้งาน\n\nคำสั่งที่สามารถใช้ได้:\n\n🔸 \"สวัสดี\" หรือ \"hello\" - ทักทาย\n🔸 \"ร้องเรียน\" หรือ \"complaint\" - ส่งข้อร้องเรียน\n🔸 \"สถานะ\" หรือ \"status\" - ตรวจสอบสถานะ\n🔸 \"ช่วยเหลือ\" หรือ \"help\" - ดูคำแนะนำ\n\n💡 เคล็ดลับ: คุณสามารถพิมพ์เป็นภาษาไทยหรือภาษาอังกฤษได้\n\nหากต้องการความช่วยเหลือเพิ่มเติม กรุณาติดต่อทีมงาน"

/-- Fallback reply of `send_default_response`. -/
def defaultMsg : String :=
  "ขออภัยค่ะ ไม่เข้าใจคำสั่งที่คุณส่งมา 😅\n\nคุณสามารถพิมพ์:\n• \"ช่วยเหลือ\" เพื่อดูคำแนะนำ\n• \"ร้องเรียน\" เพื่อส่งข้อร้องเรียน\n• \"สถานะ\" เพื่อตรวจสอบสถานะ\n\nหรือลองพิมพ์ข้อความใหม่อีกครั้งค่ะ"

/-- Acknowledgment of `handle_non_text_message` while a session is open. -/
def mediaAckMsg (typeName : String) : String :=
  "📎 ได้รับ" ++ typeName ++ "ของคุณในการร้องเรียนแล้ว\n      \nคุณสามารถส่งข้อมูลเพิ่มเติมหรือพิมพ์ \"/submit\" เพื่อส่งร้องเรียน"

/-- Reply of `handle_non_text_message` with no open session. -/
def mediaNoSessionMsg (typeName : String) : String :=
  "ได้รับ " ++ typeName ++ " ของคุณแล้วค่ะ 📎\n\nหากต้องการเริ่มร้องเรียน กรุณาพิมพ์ \"/complain\" \nหรือ \"ร้องเรียน\" เพื่อเริ่มกระบวนการร้องเรียน"

/-- Whitespace for the JS string and numeric coercions. -/
def isWsChar (c : Char) : Bool := c = ' ' || c = '\t' || c = '\n' || c = '\r'

/-- JS `String.prototype.trim`. -/
def jsTrim (s : String) : String :=
  String.mk (((s.data.dropWhile isWsChar).reverse.dropWhile isWsChar).reverse)

/-- JS `toLowerCase` (ASCII, which covers the command tokens). -/
def jsToLower (s : String) : String := String.mk (s.data.map Char.toLower)

/-- JS `toUpperCase` (ASCII). -/
def jsToUpper (s : String) : String := String.mk (s.data.map Char.toUpper)

/-- JS `startsWith`. -/
def jsStartsWith (s pat : String) : Bool := pat.data.isPrefixOf s.data

def strIncludesAux (pat : List Char) : List Char → Bool
  | [] => pat.isEmpty
  | c :: rest => pat.isPrefixOf (c :: rest) || strIncludesAux pat rest

/-- Substring test used for the natural-language routing
(`normalizedText.includes(...)`). -/
def strIncludes (s pat : String) : Bool :=
  strIncludesAux pat.data s.data

/-- `process_text_message(replyToken, userId, text, timestamp)`: the
command router of the webhook handler.  `rand` selects the rotated
acknowledgment text. -/
def process_text_message (env : Env) (st : SysState)
    (replyToken userId text : String) (now rand : Nat) :
    SysState × List Effect :=
  let normalized := jsTrim (jsToLower text)
  let active := findActiveSession userId st.sessions
  if jsStartsWith normalized "/complain" then
    start_complaint_session env st replyToken userId now
  else if jsStartsWith normalized "/submit" then
    submit_complaint_session st replyToken userId now
  else if active.isSome then
    match active with
    | some s =>
      (add_message_to_session st s Direction.user MsgType.text text now,
       [Effect.reply replyToken ((acknowledgments.get? (rand % 3)).getD "")])
    | none => (st, [])
  else if strIncludes normalized "สวัสดี" || strIncludes normalized "hello"
      || normalized = "hi" then
    (st, [Effect.reply replyToken (welcomeMsg (env.profileName userId))])
  else if strIncludes normalized "ร้องเรียน" || strIncludes normalized "complaint" then
    start_complaint_session env st replyToken userId now
  else if strIncludes normalized "สถานะ" || strIncludes normalized "status" then
    (st, [Effect.reply replyToken statusMsg])
  else if strIncludes normalized "ช่วยเหลือ" || strIncludes normalized "help" then
    (st, [Effect.reply replyToken helpMsg])
  else
    (st, [Effect.reply replyToken defaultMsg])

/-- `handle_non_text_message`: media while a session is open is captured
as a user entry `[TYPE] id` and acknowledged; otherwise only a reply. -/
def handle_non_text_message (st : SysState)
    (replyToken userId : String) (mtype : MsgType) (typeName mid : String)
    (now : Nat) : SysState × List Effect :=
  match findActiveSession userId st.sessions with
  | some s =>
    let content := "[" ++ jsToUpper typeName ++ "] " ++ mid
    let st1 := add_message_to_session st s Direction.user mtype content now
    let ack := mediaAckMsg typeName
    match findActiveSession userId st1.sessions with
    | some s' =>
      match addChatLog s' ⟨now, Direction.bot, MsgType.text, ack⟩ with
      | Except.error _ => (st1, [Effect.reply replyToken ack])
      | Except.ok s2 =>
        ({ st1 with sessions := updateSession st1.sessions s2 },
         [Effect.reply replyToken ack])
    | none => (st1, [Effect.reply replyToken ack])
  | none => (st, [Effect.reply replyToken (mediaNoSessionMsg typeName)])

/-! ## tRPC complaint router (`complaint.js`) -/

/-- Result shape of the tRPC `complaint.submit` mutation. -/
inductive TrpcSubmitResult where
  | noSession
  | insufficient
  | success (complaintId : String)
deriving DecidableEq, Repr

/-- `complaint.submit`: reject with `'Insufficient complaint details'`
when the transcript has at most one entry, otherwise submit. -/
def trpc_submit (st : SysState) (userId : String) (now : Nat) :
    TrpcSubmitResult × SysState :=
  match findActiveSession userId st.sessions with
  | none => (TrpcSubmitResult.noSession, st)
  | some s =>
    if s.chat_logs.length ≤ 1 then (TrpcSubmitResult.insufficient, st)
    else
      let s2 := submitSession s now
      (TrpcSubmitResult.success s.complaint_id,
       { st with sessions := updateSession st.sessions s2 })

/-- `complaint.create`: delegates to `createNewSession`. -/
def trpc_create (env : Env) (st : SysState) (userId : String)
    (department : Option String) (now : Nat) : SysState :=
  let r := createNewSession env st.sessions st.counter userId department now
  if r.failed then { st with counter := r.counter }
  else { st with sessions := r.sessions, counter := r.counter }

/-- `complaint.addChatLog`: append to the caller's active session. -/
def trpc_addChatLog (st : SysState) (userId : String)
    (direction : Direction) (messageType : MsgType) (message : String)
    (now : Nat) : SysState :=
  match findActiveSession userId st.sessions with
  | none => st
  | some s =>
    match addChatLog s ⟨now, direction, messageType, message⟩ with
    | Except.error _ => st
    | Except.ok s2 => { st with sessions := updateSession st.sessions s2 }

/-! ## Events and reachable states -/

/-- External stimuli of the system: LINE webhook events, the firing of
an armed inactivity timer, and the tRPC mutations that touch sessions. -/
inductive Event where
  | textMsg (replyToken userId text : String) (now rand : Nat)
  | mediaMsg (replyToken userId : String) (mtype : MsgType)
      (typeName mid : String) (now : Nat)
  | follow (userId : String)
  | timerFire (userId : String) (now : Nat)
  | trpcCreate (userId : String) (department : Option String) (now : Nat)
  | trpcAddChatLog (userId : String) (direction : Direction)
      (messageType : MsgType) (message : String) (now : Nat)
  | trpcSubmit (userId : String) (now : Nat)

/-- One step of the system: dispatch of `handle_single_event` plus the
tRPC mutations (effects discarded here; the handler-level functions
above expose them). -/
def step (env : Env) (st : SysState) : Event → SysState
  | Event.textMsg replyToken userId text now rand =>
    (process_text_message env (register_user_if_new env st userId)
      replyToken userId text now rand).1
  | Event.mediaMsg replyToken userId mtype typeName mid now =>
    (handle_non_text_message (register_user_if_new env st userId)
      replyToken userId mtype typeName mid now).1
  | Event.follow userId => register_user_if_new env st userId
  | Event.timerFire userId now => (handle_session_timeout st userId now).1
  | Event.trpcCreate userId department now =>
    trpc_create env st userId department now
  | Event.trpcAddChatLog userId direction messageType message now =>
    trpc_addChatLog st userId direction messageType message now
  | Event.trpcSubmit userId now => (trpc_submit st userId now).2

/-- The empty initial state. -/
def initState : SysState := ⟨[], [], [], [], 0⟩

/-- Run a sequence of events from the initial state. -/
def runEvents (env : Env) (evs : List Event) : SysState :=
  evs.foldl (step env) initState

/-- A state is reachable when some event sequence produces it. -/
def Reachable (env : Env) (st : SysState) : Prop :=
  ∃ evs, runEvents env evs = st

/-! ## JavaScript value model for the AI tagging service

The AI service receives `JSON.parse`d provider output, so the runtime
values it manipulates are modelled by `JSVal`.  `undef` (the result of
a missing property) and `nan` (the result of a failed numeric
coercion) never occur in parsed JSON but arise during evaluation.
Numbers are rationals; the three JS coercions the service relies on
(`ToNumber`, `ToString`, truthiness) are modelled below, restricted to
decimal numeric literals (the hexadecimal/`Infinity` forms of the full
JS grammar are irrelevant to this code path). -/

inductive JSVal where
  | undef
  | jnull
  | bool (b : Bool)
  | nan
  | num (q : ℚ)
  | str (s : String)
  | arr (xs : List JSVal)
  | obj (fs : List (String × JSVal))

/-- JS truthiness. -/
def truthy : JSVal → Bool
  | JSVal.undef => false
  | JSVal.jnull => false
  | JSVal.bool b => b
  | JSVal.nan => false
  | JSVal.num q => decide (q ≠ 0)
  | JSVal.str s => decide (s ≠ "")
  | JSVal.arr _ => true
  | JSVal.obj _ => true

/-- The `a || b` operator. -/
def jsOr (a b : JSVal) : JSVal := if truthy a then a else b

/-- Plain property access `v.k`: throws a `TypeError` on `null` and
`undefined`, yields `undefined` for a missing key or a non-object. -/
def jsMember : JSVal → String → Except Unit JSVal
  | JSVal.undef, _ => Except.error ()
  | JSVal.jnull, _ => Except.error ()
  | JSVal.obj fs, k =>
    Except.ok (((fs.find? (fun p => decide (p.1 = k))).map Prod.snd).getD JSVal.undef)
  | _, _ => Except.ok JSVal.undef

/-- Optional-chain access `v?.k`: short-circuits to `undefined` on
nullish `v`, otherwise like plain access. -/
def jsOpt : JSVal → String → JSVal
  | JSVal.obj fs, k =>
    ((fs.find? (fun p => decide (p.1 = k))).map Prod.snd).getD JSVal.undef
  | _, _ => JSVal.undef

/-- Number rendering for `ToString` (exact JS float formatting is
abstracted; integers — the only numbers this code turns into strings on
its own — render as in JS). -/
def qToString (q : ℚ) : String :=
  if q.den = 1 then toString q.num else toString q.num ++ "/" ++ toString q.den

mutual

/-- JS `ToString`. -/
def jsToString : JSVal → String
  | JSVal.undef => "undefined"
  | JSVal.jnull => "null"
  | JSVal.bool b => if b then "true" else "false"
  | JSVal.nan => "NaN"
  | JSVal.num q => qToString q
  | JSVal.str s => s
  | JSVal.arr xs => jsArrString xs
  | JSVal.obj _ => "[object Object]"

/-- `Array.prototype.toString`: elements joined by commas, nullish
elements rendered empty. -/
def jsArrString : List JSVal → String
  | [] => ""
  | v :: rest =>
    let hd := match v with
      | JSVal.undef => ""
      | JSVal.jnull => ""
      | w => jsToString w
    match rest with
    | [] => hd
    | _ => hd ++ "," ++ jsArrString rest

end

/-- Numeric value of a digit string. -/
def natOfDigits (cs : List Char) : Nat :=
  cs.foldl (fun a c => a * 10 + (c.toNat - '0'.toNat)) 0

/-- Leading sign of a numeric string. -/
def splitSign (cs : List Char) : ℚ × List Char :=
  match cs with
  | c :: t => if c = '-' then (-1, t) else if c = '+' then (1, t) else (1, cs)
  | [] => (1, cs)

/-- JS `Number(string)` on decimal literals: trimmed empty string is 0,
optional sign, digits with optional fraction; anything else is NaN
(`none`). -/
def strToNumber (s : String) : Option ℚ :=
  let cs := ((s.data.dropWhile isWsChar).reverse.dropWhile isWsChar).reverse
  if cs.isEmpty then some 0 else
  let (sign, cs2) := splitSign cs
  let intPart := cs2.takeWhile Char.isDigit
  let rest := cs2.dropWhile Char.isDigit
  match rest with
  | [] => if intPart.isEmpty then none else some (sign * natOfDigits intPart)
  | c :: frac =>
    if c = '.' then
      let fracDigits := frac.takeWhile Char.isDigit
      let rest2 := frac.dropWhile Char.isDigit
      if !rest2.isEmpty then none
      else if intPart.isEmpty && fracDigits.isEmpty then none
      else some (sign * ((natOfDigits intPart : ℚ) +
        (natOfDigits fracDigits : ℚ) / ((10 : ℚ) ^ fracDigits.length)))
    else none

/-- JS `ToNumber`. -/
def toNumber : JSVal → Option ℚ
  | JSVal.undef => none
  | JSVal.jnull => some 0
  | JSVal.bool b => some (if b then 1 else 0)
  | JSVal.nan => none
  | JSVal.num q => some q
  | JSVal.str s => strToNumber s
  | JSVal.arr xs => strToNumber (jsArrString xs)
  | JSVal.obj _ => none

/-- `parseInt(v)` (radix 10): stringify, skip whitespace, optional sign,
then the longest digit prefix; NaN when there is none. -/
def parseIntJS (v : JSVal) : Option Int :=
  let cs := (jsToString v).data.dropWhile isWsChar
  let (sign, cs2) := splitSign cs
  let ds := cs2.takeWhile Char.isDigit
  if ds.isEmpty then none
  else some ((if sign = -1 then -1 else 1) * (natOfDigits ds : Int))

/-- `parseFloat(v)`: stringify, skip whitespace, optional sign, then the
longest decimal prefix; NaN when there is none. -/
def parseFloatJS (v : JSVal) : Option ℚ :=
  let cs := (jsToString v).data.dropWhile isWsChar
  let (sign, cs2) := splitSign cs
  let intPart := cs2.takeWhile Char.isDigit
  let rest := cs2.dropWhile Char.isDigit
  let (fracDigits, hasDot) := match rest with
    | c :: frac => if c = '.' then (frac.takeWhile Char.isDigit, true) else ([], false)
    | [] => ([], false)
  if intPart.isEmpty && (!hasDot || fracDigits.isEmpty) then none
  else some (sign * ((natOfDigits intPart : ℚ) +
    (natOfDigits fracDigits : ℚ) / ((10 : ℚ) ^ fracDigits.length)))

/-- `Math.max(lo, Math.min(hi, v))` on an already-defaulted value: NaN
propagates (`none`), numbers are clamped. -/
def clampCoerce (lo hi : ℚ) (v : JSVal) : Option ℚ :=
  match toNumber v with
  | none => none
  | some q => some (max lo (min hi q))

/-- `String(v).substring(0, n)`. -/
def jsSubstring (s : String) (n : Nat) : String := String.mk (s.data.take n)

/-! ## AI tagging service: `validateAIResponse` -/

/-- The closed sentiment set. -/
def validSentiments : List String := ["positive", "neutral", "negative"]

/-- The closed eleven-category set. -/
def validCategories : List String :=
  ["workplace_harassment", "discrimination", "unfair_treatment",
   "work_conditions", "management_issues", "compensation_benefits",
   "workload_stress", "safety_concerns", "policy_violations",
   "communication_issues", "other"]

/-- The closed severity set. -/
def validSeverities : List String := ["low", "medium", "high", "critical"]

/-- The `x = raw || dflt; if (!valid.includes(x)) x = dflt` pattern used
for the three enum fields (`includes` is strict, so only a string in the
closed set survives). -/
def pickEnum (raw : JSVal) (dflt : String) (valid : List String) : String :=
  match jsOr raw (JSVal.str dflt) with
  | JSVal.str s => if valid.contains s then s else dflt
  | _ => dflt

/-- `Math.max(1, parseInt(k.frequency) || 1)`. -/
def keywordFrequency (f : JSVal) : Int :=
  max 1 (match parseIntJS f with
         | none => 1
         | some n => if n = 0 then 1 else n)

/-- `Math.max(0, Math.min(1, parseFloat(k.relevance_score) || 0.5))`. -/
def keywordRelevance (r : JSVal) : ℚ :=
  let x : ℚ := match parseFloatJS r with
    | none => 1 / 2
    | some q => if q = 0 then 1 / 2 else q
  max 0 (min 1 x)

/-- The keyword-map callback of `validateAIResponse`; the `k.word`
access throws on a nullish array element. -/
def sanitizeKeyword (k : JSVal) : Except Unit Keyword := do
  let w ← jsMember k "word"
  let f ← jsMember k "frequency"
  let r ← jsMember k "relevance_score"
  pure { word := jsSubstring (jsToString (jsOr w (JSVal.str ""))) 100
         frequency := keywordFrequency f
         relevance_score := keywordRelevance r }

/-- The keywords stage of `validateAIResponse`:
`Array.isArray(x) ? x.slice(0, 50).map(k => ...) : []`, where the map
callback may throw. -/
def keywordsOf (kw : JSVal) : Except Unit (List Keyword) :=
  match kw with
  | JSVal.arr xs => (xs.take 50).mapM sanitizeKeyword
  | _ => pure []

/-- `validateAIResponse(response)`: coerce the provider response into
the fixed schema (clamping, enum fallbacks, truncation), following the
source's access pattern (`response.X` plain, `.Y` behind an optional
chain), so a nullish `response` or keyword element throws. -/
def validateAIResponse (response : JSVal) : Except Unit Validated := do
  let sav ← jsMember response "sentiment_analysis"
  let sOut : SentimentOut :=
    { overall_sentiment :=
        pickEnum (jsOpt sav "overall_sentiment") "neutral" validSentiments
      sentiment_score :=
        clampCoerce (-1) 1 (jsOr (jsOpt sav "sentiment_score") (JSVal.num 0))
      confidence_level :=
        clampCoerce 0 1 (jsOr (jsOpt sav "confidence_level") (JSVal.num (1 / 2))) }
  let icv ← jsMember response "issue_classification"
  let cOut : ClassificationOut :=
    { primary_category :=
        pickEnum (jsOpt icv "primary_category") "other" validCategories
      secondary_categories :=
        match jsOpt icv "secondary_categories" with
        | JSVal.arr xs =>
          (xs.take 3).filterMap (fun v => match v with
            | JSVal.str s => if validCategories.contains s then some s else none
            | _ => none)
        | _ => []
      severity_level :=
        pickEnum (jsOpt icv "severity_level") "medium" validSeverities
      urgency_score :=
        clampCoerce 1 10 (jsOr (jsOpt icv "urgency_score") (JSVal.num 5)) }
  let kpv ← jsMember response "key_phrases"
  let keywords ← keywordsOf (jsOpt kpv "keywords")
  let kOut : KeyPhrasesOut :=
    { keywords := keywords
      key_phrases :=
        match jsOpt kpv "key_phrases" with
        | JSVal.arr xs => (xs.take 20).map (fun p => jsSubstring (jsToString p) 100)
        | _ => []
      emotional_indicators :=
        match jsOpt kpv "emotional_indicators" with
        | JSVal.arr xs => (xs.take 20).map (fun e => jsSubstring (jsToString e) 50)
        | _ => [] }
  let summaryRaw ← jsMember response "ai_summary"
  let recRaw ← jsMember response "recommended_actions"
  pure { sentiment_analysis := sOut
         issue_classification := cOut
         key_phrases := kOut
         ai_summary :=
           jsSubstring (jsToString (jsOr summaryRaw (JSVal.str "No summary provided"))) 1000
         recommended_actions :=
           match recRaw with
           | JSVal.arr xs => (xs.take 5).map (fun a => jsSubstring (jsToString a) 200)
           | _ => [] }

/-! ## AI tagging service: prompt construction and orchestration -/

/-- One case-insensitive leading-command strip
(`.replace(/^\/cmd\s*\/i, '')`): when the lowercased prefix matches the
command, drop it together with the whitespace that follows. -/
def stripCmd (cmd : String) (s : String) : String :=
  if jsToLower (String.mk (s.data.take cmd.length)) = cmd
  then String.mk ((s.data.drop cmd.length).dropWhile isWsChar)
  else s

/-- `cleanUserMessage(message)`: empty for a missing message, otherwise
strip a leading `/complain` then a leading `/submit` (case-insensitive)
and trim. -/
def cleanUserMessage (message : String) : String :=
  if message = "" then ""
  else jsTrim (stripCmd "/submit" (stripCmd "/complain" message))

/-- The cleaned user-authored transcript content fed to the provider:
user-direction text entries, command tokens stripped, empties dropped. -/
def promptUserMessages (s : Session) : List String :=
  ((s.chat_logs.filter (fun l =>
      decide (l.direction = Direction.user) &&
      decide (l.message_type = MsgType.text))).map
    (fun l => cleanUserMessage l.message)).filter (fun m => m.length > 0)

/-- The bot text entries included in the prompt's `BOT RESPONSES`
section. -/
def promptBotMessages (s : Session) : List String :=
  (s.chat_logs.filter (fun l =>
      decide (l.direction = Direction.bot) &&
      decide (l.message_type = MsgType.text))).map (fun l => l.message)

/-- Session duration as rendered in the prompt:
`Math.round((end - start) / (1000 * 60))` minutes, or `Ongoing`. -/
def durationText (s : Session) : String :=
  match s.end_time with
  | some e => toString ((e - s.start_time + 30000) / 60000)
  | none => "Ongoing"

/-- `JSON.stringify(this.responseSchema, null, 2)`: the literal target
shape embedded in every prompt. -/
def responseSchemaText : String := String.intercalate "\n"
  ["\x7b",
   "  \"sentiment_analysis\": \x7b",
   "    \"overall_sentiment\": \"positive|neutral|negative\",",
   "    \"sentiment_score\": \"number between -1 and 1\",",
   "    \"confidence_level\": \"number between 0 and 1\"",
   "  \x7d,",
   "  \"issue_classification\": \x7b",
   "    \"primary_category\": \"workplace_harassment|discrimination|unfair_treatment|work_conditions|management_issues|compensation_benefits|workload_stress|safety_concerns|policy_violations|communication_issues|other\",",
   "    \"secondary_categories\": [",
   "      \"array of categories from same enum\"",
   "    ],",
   "    \"severity_level\": \"low|medium|high|critical\",",
   "    \"urgency_score\": \"number between 1 and 10\"",
   "  \x7d,",
   "  \"key_phrases\": \x7b",
   "    \"keywords\": [",
   "      \x7b",
   "        \"word\": \"string\",",
   "        \"frequency\": \"number (min 1)\",",
   "        \"relevance_score\": \"number between 0 and 1\"",
   "      \x7d",
   "    ],",
   "    \"key_phrases\": [",
   "      \"array of important phrases\"",
   "    ],",
   "    \"emotional_indicators\": [",
   "      \"array of emotional words/phrases\"",
   "    ]",
   "  \x7d,",
   "  \"ai_summary\": \"string (max 1000 characters)\",",
   "  \"recommended_actions\": [",
   "    \"array of recommended actions (max 200 chars each)\"",
   "  ]",
   "\x7d"]

/-- The fixed instruction text between the transcript sections and the
schema reminder. -/
def analysisRequirementsText : String :=
  "ANALYSIS REQUIREMENTS:\n1. Sentiment Analysis: Determine overall sentiment (positive/neutral/negative), sentiment score (-1 to 1), and confidence level (0 to 1)\n2. Issue Classification: Identify primary category, any secondary categories, severity level (low/medium/high/critical), and urgency score (1-10)\n3. Key Phrases: Extract important keywords with frequency and relevance, key phrases, and emotional indicators\n4. Summary: Provide a concise 2-3 sentence summary of the complaint\n5. Recommended Actions: Suggest 2-4 specific actions HR should consider\n\nCATEGORY DEFINITIONS:\n- workplace_harassment: Bullying, inappropriate behavior, hostile work environment\n- discrimination: Based on protected characteristics (race, gender, age, etc.)\n- unfair_treatment: Favoritism, unequal treatment, bias\n- work_conditions: Physical environment, safety, equipment, workspace issues  \n- management_issues: Poor supervision, leadership problems, communication gaps\n- compensation_benefits: Pay disputes, benefits issues, overtime problems\n- workload_stress: Excessive work, unrealistic deadlines, work-life balance\n- safety_concerns: Physical safety, health hazards, security issues\n- policy_violations: Company policy breaches, procedural issues\n- communication_issues: Information gaps, unclear expectations, miscommunication\n- other: Issues that don't fit other categories"

/-- `createAnalysisPrompt(complaintSession, employee)`: the
deterministic instruction sent to the provider, in the source's fixed
concatenation order (complaint identity, employee, duration, entry
count, user messages, bot responses, requirements, schema). -/
def createAnalysisPrompt (s : Session) (employee : Option Employee) : String :=
  let userMessages := String.intercalate "\n" (promptUserMessages s)
  let botMessages := String.intercalate "\n" (promptBotMessages s)
  "\nYou are an AI assistant specialized in analyzing employee workplace complaints for HR departments. \n\nPlease analyze the following complaint conversation and provide a structured JSON response.\n\nCOMPLAINT DETAILS:\n- Complaint ID: " ++
  s.complaint_id ++
  "\n- Employee: " ++
  (match employee with | some e => e.display_name | none => "Unknown") ++
  " (Department: " ++
  (match employee with
   | some e => match e.department with | some d => d | none => "null"
   | none => "Unknown") ++
  ")\n- Session Duration: " ++ durationText s ++ " minutes\n- Total Messages: " ++
  toString s.chat_logs.length ++
  "\n\nUSER MESSAGES (Employee complaints):\n" ++ userMessages ++
  "\n\nBOT RESPONSES:\n" ++ botMessages ++
  "\n\n" ++ analysisRequirementsText ++
  "\n\nRESPONSE FORMAT (must be valid JSON):\n" ++ responseSchemaText ++
  "\n\nPlease respond with ONLY the JSON object, no additional text or explanations.\n"

/-- Removal of the trailing code fence (`.replace(/\s*$/, '')` applied
after a fence prefix matched; the text was already trimmed). -/
def stripTrailingFence (s : String) : String :=
  let fence := "```".data
  let r := s.data.reverse
  if r.take 3 = fence.reverse
  then String.mk (((r.drop 3).dropWhile isWsChar).reverse)
  else s

/-- The markdown-fence cleanup applied to the provider's text before
`JSON.parse`. -/
def stripCodeFence (text : String) : String :=
  let t := jsTrim text
  if jsStartsWith t "```json" then
    stripTrailingFence (String.mk ((t.data.drop 7).dropWhile isWsChar))
  else if jsStartsWith t "```" then
    stripTrailingFence (String.mk ((t.data.drop 3).dropWhile isWsChar))
  else t

/-- `ai tag` id (`generateAITagId`). -/
def generateAITagId (sid : String) : String := "aitag_" ++ sid

/-- Oracles for the externals of the enrichment pipeline: the Gemini
call (which may fail) and the `JSON.parse` builtin (`none` models a
parse exception). -/
structure AIEnv where
  generate : String → Except Unit String
  parseJson : String → Option JSVal

/-- The analysis document assembled by `processComplaintSession` from
the session, the employee lookup and the sanitized provider response
(`message_count` counts cleaned user messages only;
`complaint_text_length` is the character count of their join). -/
def buildTag (csession : Session) (employee : Option Employee)
    (sid : String) (validated : Validated) : AITag :=
  { id := generateAITagId sid
    complaint_session_id := sid
    complaint_id := csession.complaint_id
    user_id := csession.user_id
    employee_display_name :=
      match employee with | some e => e.display_name | none => "Unknown"
    department :=
      match employee with
      | some e => e.department
      | none => csession.department
    sentiment_analysis := validated.sentiment_analysis
    issue_classification := validated.issue_classification
    key_phrases := validated.key_phrases
    complaint_start_time := csession.start_time
    complaint_end_time := csession.end_time
    message_count := (promptUserMessages csession).length
    complaint_text_length :=
      (String.intercalate " " (promptUserMessages csession)).length
    model_version := "gemini-1.5-flash"
    processing_time_ms := 0
    ai_summary := validated.ai_summary
    recommended_actions := validated.recommended_actions }

/-- `processComplaintSession(complaintSessionId)`: fetch the session,
fetch the employee, return the existing analysis unchanged when one
exists (before any provider call), otherwise build the prompt, call
the provider, parse and sanitize the response, derive the metrics and
persist exactly one record.  The third component counts provider
calls. -/
def processComplaintSession (aienv : AIEnv) (st : SysState) (sid : String) :
    Except String DashboardSummary × SysState × Nat :=
  match st.sessions.find? (fun s => decide (s.sessionId = sid)) with
  | none => (Except.error ("Complaint session not found: " ++ sid), st, 0)
  | some csession =>
    let employee := st.employees.find? (fun e => decide (e.id = csession.user_id))
    match st.tags.find? (fun t => decide (t.complaint_session_id = sid)) with
    | some existing => (Except.ok (getSummaryForDashboard existing), st, 0)
    | none =>
      let prompt := createAnalysisPrompt csession employee
      match aienv.generate prompt with
      | Except.error _ => (Except.error "provider error", st, 1)
      | Except.ok text =>
        match aienv.parseJson (stripCodeFence text) with
        | none => (Except.error "Invalid JSON response from AI", st, 1)
        | some parsed =>
          match validateAIResponse parsed with
          | Except.error _ => (Except.error "TypeError", st, 1)
          | Except.ok validated =>
            let tag : AITag := buildTag csession employee sid validated
            match insertTag st.tags tag with
            | Except.error _ => (Except.error "duplicate analysis", st, 1)
            | Except.ok tags' =>
              (Except.ok (getSummaryForDashboard tag), { st with tags := tags' }, 1)

/-! ## Sanitizer lemmas -/

/-- The raw value at `response.k1?.k2`, as a total function (valid when
`response` is not nullish, where the plain access cannot throw). -/
def fieldOf (response : JSVal) (k1 k2 : String) : JSVal :=
  jsOpt (jsOpt response k1) k2

/-- A value is numerically safe when it is falsy (so the `|| default`
replaces it) or coerces to an actual number rather than `NaN`. -/
def numSafe (v : JSVal) : Prop := truthy v = false ∨ toNumber v ≠ none

theorem exceptBindOk {α β : Type} (a : α) (f : α → Except Unit β) :
    (Except.ok a : Except Unit α) >>= f = f a := rfl

theorem jsMember_ok {v : JSVal} (h1 : v ≠ JSVal.undef) (h2 : v ≠ JSVal.jnull)
    (k : String) : jsMember v k = Except.ok (jsOpt v k) := by
  cases v with
  | undef => exact absurd rfl h1
  | jnull => exact absurd rfl h2
  | bool b => rfl
  | nan => rfl
  | num q => rfl
  | str s => rfl
  | arr xs => rfl
  | obj fs => rfl

theorem clampCoerce_of_numSafe (lo hi : ℚ) {raw : JSVal} (dflt : ℚ)
    (hlh : lo ≤ hi) (h : numSafe raw) :
    ∃ q, clampCoerce lo hi (jsOr raw (JSVal.num dflt)) = some q ∧
      lo ≤ q ∧ q ≤ hi := by
  unfold jsOr clampCoerce
  by_cases ht : truthy raw
  · rw [if_pos ht]
    rcases h with h | h
    · rw [ht] at h
      cases h
    · rcases Option.ne_none_iff_exists'.mp h with ⟨q, hq⟩
      rw [hq]
      exact ⟨max lo (min hi q), rfl, le_max_left _ _,
        max_le hlh (le_trans (min_le_left _ _) (le_refl _))⟩
  · rw [if_neg ht]
    show ∃ q, (match toNumber (JSVal.num dflt) with
      | none => none
      | some q => some (max lo (min hi q))) = some q ∧ lo ≤ q ∧ q ≤ hi
    exact ⟨max lo (min hi dflt), rfl, le_max_left _ _,
      max_le hlh (le_trans (min_le_left _ _) (le_refl _))⟩

theorem pickEnum_mem (raw : JSVal) (dflt : String) (valid : List String)
    (hd : dflt ∈ valid) : pickEnum raw dflt valid ∈ valid := by
  unfold pickEnum
  split
  next s _ =>
    by_cases hc : valid.contains s
    · rw [if_pos hc]
      exact List.mem_of_elem_eq_true hc
    · rw [if_neg hc]
      exact hd
  next => exact hd

theorem sanitizeKeyword_ok {k : JSVal} (h1 : k ≠ JSVal.undef)
    (h2 : k ≠ JSVal.jnull) :
    sanitizeKeyword k = Except.ok
      { word := jsSubstring (jsToString (jsOr (jsOpt k "word") (JSVal.str ""))) 100
        frequency := keywordFrequency (jsOpt k "frequency")
        relevance_score := keywordRelevance (jsOpt k "relevance_score") } := by
  unfold sanitizeKeyword
  rw [jsMember_ok h1 h2, jsMember_ok h1 h2, jsMember_ok h1 h2]
  rfl

theorem keywordFrequency_ge_one (f : JSVal) : 1 ≤ keywordFrequency f :=
  le_max_left _ _

theorem keywordRelevance_bounds (r : JSVal) :
    0 ≤ keywordRelevance r ∧ keywordRelevance r ≤ 1 := by
  unfold keywordRelevance
  exact ⟨le_max_left _ _, max_le (by norm_num) (min_le_left _ _)⟩

theorem jsSubstring_length_le (s : String) (n : Nat) :
    (jsSubstring s n).length ≤ n := by
  show (s.data.take n).length ≤ n
  exact List.length_take_le n s.data

theorem mapM_sanitize_ok {xs : List JSVal}
    (h : ∀ k ∈ xs, k ≠ JSVal.undef ∧ k ≠ JSVal.jnull) :
    ∃ ys, xs.mapM sanitizeKeyword = Except.ok ys ∧
      ys.length = xs.length ∧
      ∀ y ∈ ys, y.word.length ≤ 100 ∧ 1 ≤ y.frequency ∧
        0 ≤ y.relevance_score ∧ y.relevance_score ≤ 1 := by
  induction xs with
  | nil => exact ⟨[], rfl, rfl, fun y hy => absurd hy (List.not_mem_nil y)⟩
  | cons x xs ih =>
    obtain ⟨hx1, hx2⟩ := h x (List.mem_cons_self _ _)
    obtain ⟨ys, hys, hlen, hbd⟩ := ih (fun k hk => h k (List.mem_cons_of_mem _ hk))
    refine ⟨{ word := jsSubstring (jsToString (jsOr (jsOpt x "word") (JSVal.str ""))) 100
              frequency := keywordFrequency (jsOpt x "frequency")
              relevance_score := keywordRelevance (jsOpt x "relevance_score") } :: ys,
      ?_, by simp [hlen], ?_⟩
    · rw [List.mapM_cons, sanitizeKeyword_ok hx1 hx2, hys]
      rfl
    · intro y hy
      rcases List.mem_cons.mp hy with rfl | hy
      · exact ⟨jsSubstring_length_le _ _, keywordFrequency_ge_one _,
          (keywordRelevance_bounds _).1, (keywordRelevance_bounds _).2⟩
      · exact hbd y hy

/-- Characterization of a successful run of the sanitizer: for a
non-nullish response whose keywords stage succeeds, the result is the
record built field-by-field from the raw values. -/
theorem validateAIResponse_ok_char {response : JSVal}
    (h1 : response ≠ JSVal.undef) (h2 : response ≠ JSVal.jnull)
    {ys : List Keyword}
    (hkws : keywordsOf (jsOpt (jsOpt response "key_phrases") "keywords")
      = Except.ok ys) :
    validateAIResponse response = Except.ok
      { sentiment_analysis :=
          { overall_sentiment :=
              pickEnum (fieldOf response "sentiment_analysis" "overall_sentiment")
                "neutral" validSentiments
            sentiment_score := clampCoerce (-1) 1
              (jsOr (fieldOf response "sentiment_analysis" "sentiment_score")
                (JSVal.num 0))
            confidence_level := clampCoerce 0 1
              (jsOr (fieldOf response "sentiment_analysis" "confidence_level")
                (JSVal.num (1 / 2))) }
        issue_classification :=
          { primary_category :=
              pickEnum (fieldOf response "issue_classification" "primary_category")
                "other" validCategories
            secondary_categories :=
              match fieldOf response "issue_classification" "secondary_categories" with
              | JSVal.arr xs =>
                (xs.take 3).filterMap (fun v => match v with
                  | JSVal.str s =>
                    if validCategories.contains s then some s else none
                  | _ => none)
              | _ => []
            severity_level :=
              pickEnum (fieldOf response "issue_classification" "severity_level")
                "medium" validSeverities
            urgency_score := clampCoerce 1 10
              (jsOr (fieldOf response "issue_classification" "urgency_score")
                (JSVal.num 5)) }
        key_phrases :=
          { keywords := ys
            key_phrases :=
              match fieldOf response "key_phrases" "key_phrases" with
              | JSVal.arr xs =>
                (xs.take 20).map (fun p => jsSubstring (jsToString p) 100)
              | _ => []
            emotional_indicators :=
              match fieldOf response "key_phrases" "emotional_indicators" with
              | JSVal.arr xs =>
                (xs.take 20).map (fun e => jsSubstring (jsToString e) 50)
              | _ => [] }
        ai_summary := jsSubstring (jsToString
          (jsOr (jsOpt response "ai_summary") (JSVal.str "No summary provided"))) 1000
        recommended_actions :=
          match jsOpt response "recommended_actions" with
          | JSVal.arr xs => (xs.take 5).map (fun a => jsSubstring (jsToString a) 200)
          | _ => [] } := by
  unfold validateAIResponse
  simp only [jsMember_ok h1 h2, exceptBindOk]
  rw [hkws]
  simp only [exceptBindOk]
  rfl

/-- The documented interval bound on an optional numeric field (`none`
is JavaScript's `NaN`, which satisfies no bound). -/
def inRange (lo hi : ℚ) : Option ℚ → Prop
  | some q => lo ≤ q ∧ q ≤ hi
  | none => False

instance (lo hi : ℚ) (o : Option ℚ) : Decidable (inRange lo hi o) := by
  cases o with
  | none => exact isFalse (fun h => h)
  | some q => exact inferInstanceAs (Decidable (_ ∧ _))

/-- Every documented bound of the analysis schema, on a sanitizer
output record. -/
def BoundsOK (r : Validated) : Prop :=
  r.sentiment_analysis.overall_sentiment ∈ validSentiments ∧
  inRange (-1) 1 r.sentiment_analysis.sentiment_score ∧
  inRange 0 1 r.sentiment_analysis.confidence_level ∧
  r.issue_classification.primary_category ∈ validCategories ∧
  r.issue_classification.secondary_categories.length ≤ 3 ∧
  (∀ c ∈ r.issue_classification.secondary_categories, c ∈ validCategories) ∧
  r.issue_classification.severity_level ∈ validSeverities ∧
  inRange 1 10 r.issue_classification.urgency_score ∧
  r.key_phrases.keywords.length ≤ 50 ∧
  (∀ k ∈ r.key_phrases.keywords, k.word.length ≤ 100 ∧ 1 ≤ k.frequency ∧
    0 ≤ k.relevance_score ∧ k.relevance_score ≤ 1) ∧
  r.key_phrases.key_phrases.length ≤ 20 ∧
  (∀ p ∈ r.key_phrases.key_phrases, p.length ≤ 100) ∧
  r.key_phrases.emotional_indicators.length ≤ 20 ∧
  (∀ p ∈ r.key_phrases.emotional_indicators, p.length ≤ 50) ∧
  r.ai_summary.length ≤ 1000 ∧
  r.recommended_actions.length ≤ 5 ∧
  (∀ a ∈ r.recommended_actions, a.length ≤ 200)

theorem pickEnum_of_valid {raw : JSVal} {s : String} (dflt : String)
    {valid : List String} (hs : raw = JSVal.str s) (hmem : s ∈ valid)
    (hne : s ≠ "") : pickEnum raw dflt valid = s := by
  subst hs
  unfold pickEnum jsOr
  have ht : truthy (JSVal.str s) = true := decide_eq_true hne
  rw [if_pos ht]
  dsimp only
  rw [if_pos (List.elem_eq_true_of_mem hmem)]

theorem pickEnum_default {raw : JSVal} {dflt : String} {valid : List String}
    (hd : dflt ∈ valid) (hne : ¬ ∃ s ∈ valid, raw = JSVal.str s) :
    pickEnum raw dflt valid = dflt := by
  unfold pickEnum jsOr
  by_cases ht : truthy raw
  · rw [if_pos ht]
    cases raw with
    | str s =>
      by_cases hc : valid.contains s
      · exact absurd ⟨s, List.mem_of_elem_eq_true hc, rfl⟩ hne
      · dsimp only
        rw [if_neg hc]
    | undef => rfl
    | jnull => rfl
    | bool b => rfl
    | nan => rfl
    | num q => rfl
    | arr xs => rfl
    | obj fs => rfl
  · rw [if_neg ht]
    dsimp only
    rw [if_pos (List.elem_eq_true_of_mem hd)]

theorem mapM_length_ex {α β : Type} {f : α → Except Unit β} :
    ∀ {xs : List α} {ys : List β}, xs.mapM f = Except.ok ys →
      ys.length = xs.length := by
  intro xs
  induction xs with
  | nil =>
    intro ys h
    cases h
    rfl
  | cons x xs ih =>
    intro ys h
    rw [List.mapM_cons] at h
    cases hx : f x with
    | error e => rw [hx] at h; cases h
    | ok b =>
      rw [hx] at h
      cases hxs : List.mapM f xs with
      | error e => rw [hxs] at h; cases h
      | ok ys' =>
        rw [hxs] at h
        cases h
        simp [ih hxs]

theorem keywordsOf_length_le {kw : JSVal} {ys : List Keyword}
    (h : keywordsOf kw = Except.ok ys) : ys.length ≤ 50 := by
  unfold keywordsOf at h
  split at h
  next xs =>
    rw [mapM_length_ex h]
    exact List.length_take_le _ _
  next =>
    cases h
    exact Nat.zero_le _

theorem validateAIResponse_throws_nullish :
    validateAIResponse JSVal.undef = Except.error () ∧
    validateAIResponse JSVal.jnull = Except.error () := ⟨rfl, rfl⟩

theorem validateAIResponse_kw_error {response : JSVal} {e : Unit}
    (h1 : response ≠ JSVal.undef) (h2 : response ≠ JSVal.jnull)
    (hkws : keywordsOf (jsOpt (jsOpt response "key_phrases") "keywords")
      = Except.error e) :
    validateAIResponse response = Except.error e := by
  unfold validateAIResponse
  simp only [jsMember_ok h1 h2, exceptBindOk]
  rw [hkws]
  rfl

/-! ## Store lemmas -/

/-- Every user has at most one open session in the store. -/
def OneOpen (l : List Session) : Prop := ∀ u, countOpen u l ≤ 1

/-- The stored `_id`s are distinct (the store's unique `_id` index). -/
def IdsNodup (l : List Session) : Prop := (l.map (fun s => s.sessionId)).Nodup

instance (l : List Session) : Decidable (IdsNodup l) := by
  unfold IdsNodup
  exact List.nodupDecidable _

/-- Store invariant carried through every reachable state. -/
def Inv (st : SysState) : Prop := OneOpen st.sessions ∧ IdsNodup st.sessions

/-- Status of the stored session with a given `_id`. -/
def statusOf (l : List Session) (sid : String) : Option Status :=
  (l.find? (fun t => decide (t.sessionId = sid))).map (fun t => t.status)

theorem mem_of_findActive {u : String} {l : List Session} {s : Session}
    (h : findActiveSession u l = some s) : s ∈ l ∧ isOpenFor u s := by
  induction l with
  | nil => simp [findActiveSession] at h
  | cons x xs ih =>
    by_cases hx : isOpenFor u x
    · rw [findActiveSession, if_pos hx] at h
      cases h
      exact ⟨List.mem_cons_self _ _, hx⟩
    · rw [findActiveSession, if_neg hx] at h
      exact ⟨List.mem_cons_of_mem _ (ih h).1, (ih h).2⟩

theorem countOpen_zero_of_findActive_none {u : String} {l : List Session}
    (h : findActiveSession u l = none) : countOpen u l = 0 := by
  induction l with
  | nil => rfl
  | cons x xs ih =>
    by_cases hx : isOpenFor u x
    · rw [findActiveSession, if_pos hx] at h; cases h
    · rw [findActiveSession, if_neg hx] at h
      rw [countOpen, if_neg hx, ih h]

theorem countOpen_append (u : String) (l : List Session) (s : Session) :
    countOpen u (l ++ [s]) = countOpen u l + (if isOpenFor u s then 1 else 0) := by
  induction l with
  | nil => simp [countOpen]
  | cons x xs ih =>
    simp only [List.cons_append, countOpen, List.append_eq]
    rw [ih]
    omega

theorem countOpen_map_le (u : String) (l : List Session) (f : Session → Session)
    (h : ∀ t ∈ l, isOpenFor u (f t) → isOpenFor u t) :
    countOpen u (l.map f) ≤ countOpen u l := by
  induction l with
  | nil => simp [countOpen]
  | cons x xs ih =>
    simp only [List.map_cons, countOpen]
    have hx := h x (List.mem_cons_self _ _)
    have hxs := ih (fun t ht => h t (List.mem_cons_of_mem _ ht))
    by_cases h1 : isOpenFor u (f x)
    · rw [if_pos h1, if_pos (hx h1)]; omega
    · rw [if_neg h1]
      by_cases h2 : isOpenFor u x
      · rw [if_pos h2]; omega
      · rw [if_neg h2]; omega

theorem updateSession_map_id (l : List Session) (s' : Session) :
    (updateSession l s').map (fun s => s.sessionId) = l.map (fun s => s.sessionId) := by
  induction l with
  | nil => rfl
  | cons x xs ih =>
    simp only [updateSession, List.map_cons] at *
    by_cases hx : x.sessionId = s'.sessionId
    · rw [if_pos hx, ih, hx]
    · rw [if_neg hx, ih]

theorem idsNodup_update {l : List Session} (s' : Session) (h : IdsNodup l) :
    IdsNodup (updateSession l s') := by
  unfold IdsNodup
  rw [updateSession_map_id]
  exact h

theorem oneOpen_update_closed {l : List Session} {s' : Session}
    (h : OneOpen l) (hs : s'.status ≠ Status.open') : OneOpen (updateSession l s') := by
  intro u
  refine le_trans (countOpen_map_le u l _ ?_) (h u)
  intro t _ hopen
  by_cases hid : t.sessionId = s'.sessionId
  · rw [if_pos hid] at hopen
    exact absurd hopen.2 hs
  · rwa [if_neg hid] at hopen

theorem eq_of_sessionId_eq {l : List Session} {s t : Session}
    (hids : IdsNodup l) (hs : s ∈ l) (ht : t ∈ l)
    (hid : t.sessionId = s.sessionId) : t = s := by
  exact List.inj_on_of_nodup_map hids ht hs hid

theorem oneOpen_update_same {l : List Session} {s s' : Session}
    (h : OneOpen l) (hids : IdsNodup l) (hmem : s ∈ l)
    (hid : s'.sessionId = s.sessionId) (huser : s'.user_id = s.user_id)
    (hstat : s'.status = s.status) : OneOpen (updateSession l s') := by
  intro u
  refine le_trans (countOpen_map_le u l _ ?_) (h u)
  intro t ht hopen
  by_cases htid : t.sessionId = s'.sessionId
  · rw [if_pos htid] at hopen
    have : t = s := eq_of_sessionId_eq hids hmem ht (htid.trans hid)
    subst this
    exact ⟨by rw [← huser]; exact hopen.1, by rw [← hstat]; exact hopen.2⟩
  · rwa [if_neg htid] at hopen

theorem find_id_update {l : List Session} {s s' : Session}
    (hids : IdsNodup l) (hmem : s ∈ l) (hid : s'.sessionId = s.sessionId) :
    (updateSession l s').find? (fun t => decide (t.sessionId = s.sessionId)) = some s' := by
  induction l with
  | nil => cases hmem
  | cons x xs ih =>
    rw [updateSession, List.map_cons]
    by_cases hx : x.sessionId = s'.sessionId
    · rw [if_pos hx]
      exact List.find?_cons_of_pos _ (by simp [hid])
    · rw [if_neg hx]
      have hxs : s ∈ xs := by
        rcases List.mem_cons.mp hmem with h1 | h1
        · subst h1
          exact absurd hid.symm hx
        · exact h1
      have hpx : decide (x.sessionId = s.sessionId) = false := by
        simp only [decide_eq_false_iff_not]
        intro hc
        exact hx (hc.trans hid.symm)
      have htl : IdsNodup xs := by
        unfold IdsNodup at hids ⊢
        simp only [List.map_cons, List.nodup_cons] at hids
        exact hids.2
      show List.find? (fun t => decide (t.sessionId = s.sessionId))
        (x :: updateSession xs s') = some s'
      simp only [List.find?, hpx]
      exact ih htl hxs

theorem addChatLog_ok {s s' : Session} {e : ChatEntry}
    (h : addChatLog s e = Except.ok s') :
    s'.sessionId = s.sessionId ∧ s'.user_id = s.user_id ∧
    s'.status = s.status ∧ s'.chat_logs = s.chat_logs ++ [e] := by
  unfold addChatLog at h
  split at h
  · cases h
  · cases h
    exact ⟨rfl, rfl, rfl, rfl⟩

theorem insertSession_ok {l l' : List Session} {s : Session}
    (h : insertSession l s = Except.ok l') :
    l' = l ++ [s] ∧ s.sessionId ∉ l.map (fun t => t.sessionId) := by
  unfold insertSession at h
  split at h
  case isTrue hlen =>
    cases h
    refine ⟨rfl, ?_⟩
    intro hmem
    rcases List.mem_map.mp hmem with ⟨t, ht, hid⟩
    have : t ∈ l.filter (fun t => decide (t.sessionId = s.sessionId)) :=
      List.mem_filter.mpr ⟨ht, by simp [hid]⟩
    rw [List.length_eq_zero] at hlen
    rw [hlen] at this
    cases this
  case isFalse => cases h

theorem update_same_facts {l : List Session} {s s' : Session}
    (hOne : OneOpen l) (hIds : IdsNodup l) (hmem : s ∈ l)
    (hid : s'.sessionId = s.sessionId) (huser : s'.user_id = s.user_id)
    (hstat : s'.status = s.status) :
    OneOpen (updateSession l s') ∧ IdsNodup (updateSession l s') ∧
    s' ∈ updateSession l s' := by
  refine ⟨oneOpen_update_same hOne hIds hmem hid huser hstat,
    idsNodup_update s' hIds, ?_⟩
  exact List.mem_of_find?_eq_some (find_id_update hIds hmem hid)

theorem update_closed_facts {l : List Session} {s' : Session}
    (hOne : OneOpen l) (hIds : IdsNodup l) (hstat : s'.status ≠ Status.open') :
    OneOpen (updateSession l s') ∧ IdsNodup (updateSession l s') :=
  ⟨oneOpen_update_closed hOne hstat, idsNodup_update s' hIds⟩

theorem createNewSession_inv (env : Env) (l : List Session) (ctr : Nat)
    (u : String) (d : Option String) (now : Nat)
    (h1 : OneOpen l) (h2 : IdsNodup l) :
    OneOpen (createNewSession env l ctr u d now).sessions ∧
    IdsNodup (createNewSession env l ctr u d now).sessions ∧
    ((createNewSession env l ctr u d now).failed = false →
      (createNewSession env l ctr u d now).session ∈
        (createNewSession env l ctr u d now).sessions ∧
      (createNewSession env l ctr u d now).session.user_id = u ∧
      (createNewSession env l ctr u d now).session.status = Status.open') := by
  unfold createNewSession
  cases hf : findActiveSession u l with
  | some s =>
    have hs := mem_of_findActive hf
    exact ⟨h1, h2, fun _ => ⟨hs.1, hs.2.1, hs.2.2⟩⟩
  | none =>
    simp only
    split
    case h_1 l' hins =>
      rcases insertSession_ok hins with ⟨hl', hnid⟩
      subst hl'
      refine ⟨?_, ?_, fun _ => ⟨List.mem_append_right _ (List.mem_singleton.mpr rfl), rfl, rfl⟩⟩
      · intro u'
        rw [countOpen_append]
        split
        case isTrue hop =>
          have hu : u' = u := by
            have h3 := hop.1
            simpa using h3.symm
          subst hu
          rw [countOpen_zero_of_findActive_none hf]
        case isFalse => simpa using h1 u'
      · unfold IdsNodup at h2 ⊢
        rw [List.map_append]
        simp only [List.map_cons, List.map_nil]
        rw [List.nodup_append]
        exact ⟨h2, List.nodup_singleton _, by
          intro a ha hb
          rcases List.mem_singleton.mp hb with rfl
          exact hnid ha⟩
    case h_2 hins =>
      exact ⟨h1, h2, fun hfail => by cases hfail⟩

theorem inv_start_complaint (env : Env) (st : SysState) (tok u : String)
    (now : Nat) (h : Inv st) : Inv (start_complaint_session env st tok u now).1 := by
  obtain ⟨h1, h2⟩ := h
  unfold start_complaint_session
  cases hf : findActiveSession u st.sessions with
  | some s => exact ⟨h1, h2⟩
  | none =>
    obtain ⟨hcOne, hcIds, hcMem⟩ := createNewSession_inv env st.sessions st.counter u
      (((st.employees.find? (fun e => decide (e.id = u))).map
        (fun e => e.department)).getD none) now h1 h2
    simp only
    split
    · exact ⟨hcOne, hcIds⟩
    next hfail =>
      have hfail' : (createNewSession env st.sessions st.counter u
          (((st.employees.find? (fun e => decide (e.id = u))).map
            (fun e => e.department)).getD none) now).failed = false := by
        simpa using hfail
      obtain ⟨hmem, huser, hstat⟩ := hcMem hfail'
      split
      · exact ⟨hcOne, hcIds⟩
      next s2 hlog =>
        obtain ⟨hid2, hu2, hs2, _⟩ := addChatLog_ok hlog
        obtain ⟨hOne1, hIds1, hmem1⟩ := update_same_facts hcOne hcIds hmem hid2 hu2 hs2
        split
        · exact ⟨hOne1, hIds1⟩
        next s3 hlog2 =>
          obtain ⟨hid3, hu3, hs3, _⟩ := addChatLog_ok hlog2
          obtain ⟨hOne2, hIds2, _⟩ := update_same_facts hOne1 hIds1 hmem1 hid3 hu3 hs3
          exact ⟨hOne2, hIds2⟩

theorem inv_submit_complaint (st : SysState) (tok u : String) (now : Nat)
    (h : Inv st) : Inv (submit_complaint_session st tok u now).1 := by
  obtain ⟨h1, h2⟩ := h
  unfold submit_complaint_session
  cases hf : findActiveSession u st.sessions with
  | none => exact ⟨h1, h2⟩
  | some s =>
    simp only
    split
    · exact ⟨h1, h2⟩
    next s2 hlog =>
      have hsub : (submitSession s2 now).status ≠ Status.open' := by
        intro hc
        cases hc
      obtain ⟨hOne1, hIds1⟩ := update_closed_facts h1 h2 hsub
      split
      · exact ⟨hOne1, hIds1⟩
      next s4 hlog2 =>
        obtain ⟨_, _, hs4, _⟩ := addChatLog_ok hlog2
        have hsub4 : s4.status ≠ Status.open' := by
          rw [hs4]
          intro hc
          cases hc
        obtain ⟨hOne2, hIds2⟩ := update_closed_facts hOne1 hIds1 hsub4
        exact ⟨hOne2, hIds2⟩

theorem inv_add_message (st : SysState) (s : Session) (d : Direction)
    (mt : MsgType) (m : String) (now : Nat) (hmem : s ∈ st.sessions)
    (h : Inv st) : Inv (add_message_to_session st s d mt m now) := by
  obtain ⟨h1, h2⟩ := h
  unfold add_message_to_session
  split
  · exact ⟨h1, h2⟩
  next s2 hlog =>
    obtain ⟨hid2, hu2, hs2, _⟩ := addChatLog_ok hlog
    obtain ⟨hOne1, hIds1, _⟩ := update_same_facts h1 h2 hmem hid2 hu2 hs2
    split
    · exact ⟨hOne1, hIds1⟩
    · exact ⟨hOne1, hIds1⟩

theorem inv_session_timeout (st : SysState) (u : String) (now : Nat)
    (h : Inv st) : Inv (handle_session_timeout st u now).1 := by
  obtain ⟨h1, h2⟩ := h
  unfold handle_session_timeout
  cases hf : findActiveSession u st.sessions with
  | none => exact ⟨h1, h2⟩
  | some s =>
    simp only
    split
    · split
      · exact ⟨h1, h2⟩
      next s2 hlog =>
        have hsub : (submitSession s2 now).status ≠ Status.open' := by
          intro hc
          cases hc
        obtain ⟨hOne1, hIds1⟩ := update_closed_facts h1 h2 hsub
        exact ⟨hOne1, hIds1⟩
    · have hcan : (cancelSession s now).status ≠ Status.open' := by
        intro hc
        cases hc
      obtain ⟨hOne1, hIds1⟩ := update_closed_facts h1 h2 hcan
      exact ⟨hOne1, hIds1⟩

theorem inv_trpc_submit (st : SysState) (u : String) (now : Nat)
    (h : Inv st) : Inv (trpc_submit st u now).2 := by
  obtain ⟨h1, h2⟩ := h
  unfold trpc_submit
  cases hf : findActiveSession u st.sessions with
  | none => exact ⟨h1, h2⟩
  | some s =>
    simp only
    split
    · exact ⟨h1, h2⟩
    · have hsub : (submitSession s now).status ≠ Status.open' := by
        intro hc
        cases hc
      obtain ⟨hOne1, hIds1⟩ := update_closed_facts h1 h2 hsub
      exact ⟨hOne1, hIds1⟩

theorem inv_trpc_create (env : Env) (st : SysState) (u : String)
    (d : Option String) (now : Nat) (h : Inv st) :
    Inv (trpc_create env st u d now) := by
  obtain ⟨h1, h2⟩ := h
  obtain ⟨hcOne, hcIds, _⟩ := createNewSession_inv env st.sessions st.counter u d now h1 h2
  unfold trpc_create
  dsimp only
  split
  · exact ⟨h1, h2⟩
  · exact ⟨hcOne, hcIds⟩

theorem inv_trpc_addChatLog (st : SysState) (u : String) (d : Direction)
    (mt : MsgType) (m : String) (now : Nat) (h : Inv st) :
    Inv (trpc_addChatLog st u d mt m now) := by
  obtain ⟨h1, h2⟩ := h
  unfold trpc_addChatLog
  cases hf : findActiveSession u st.sessions with
  | none => exact ⟨h1, h2⟩
  | some s =>
    simp only
    split
    · exact ⟨h1, h2⟩
    next s2 hlog =>
      obtain ⟨hid2, hu2, hs2, _⟩ := addChatLog_ok hlog
      obtain ⟨hOne1, hIds1, _⟩ :=
        update_same_facts h1 h2 (mem_of_findActive hf).1 hid2 hu2 hs2
      exact ⟨hOne1, hIds1⟩

theorem inv_register (env : Env) (st : SysState) (u : String) (h : Inv st) :
    Inv (register_user_if_new env st u) := by
  obtain ⟨h1, h2⟩ := h
  unfold register_user_if_new
  split
  · exact ⟨h1, h2⟩
  · exact ⟨h1, h2⟩

theorem inv_process_text (env : Env) (st : SysState) (tok u text : String)
    (now rand : Nat) (h : Inv st) :
    Inv (process_text_message env st tok u text now rand).1 := by
  unfold process_text_message
  dsimp only
  split
  · exact inv_start_complaint env st tok u now h
  split
  · exact inv_submit_complaint st tok u now h
  split
  · split
    next s heq =>
      exact inv_add_message st s Direction.user MsgType.text text now
        (mem_of_findActive heq).1 h
    · exact h
  split
  · exact h
  split
  · exact inv_start_complaint env st tok u now h
  split
  · exact h
  split
  · exact h
  · exact h

theorem inv_non_text (st : SysState) (tok u : String) (mt : MsgType)
    (tn mid : String) (now : Nat) (h : Inv st) :
    Inv (handle_non_text_message st tok u mt tn mid now).1 := by
  unfold handle_non_text_message
  cases hf : findActiveSession u st.sessions with
  | none => exact h
  | some s =>
    simp only
    have hadd := inv_add_message st s Direction.user mt
      ("[" ++ jsToUpper tn ++ "] " ++ mid) now (mem_of_findActive hf).1 h
    cases hf2 : findActiveSession u
      (add_message_to_session st s Direction.user mt
        ("[" ++ jsToUpper tn ++ "] " ++ mid) now).sessions with
    | none => exact hadd
    | some s' =>
      simp only
      split
      · exact hadd
      next s2 hlog =>
        obtain ⟨hid2, hu2, hs2, _⟩ := addChatLog_ok hlog
        obtain ⟨hOne1, hIds1, _⟩ := update_same_facts hadd.1 hadd.2
          (mem_of_findActive hf2).1 hid2 hu2 hs2
        exact ⟨hOne1, hIds1⟩

theorem inv_step (env : Env) (st : SysState) (e : Event) (h : Inv st) :
    Inv (step env st e) := by
  cases e with
  | textMsg tok u text now rand =>
    exact inv_process_text env _ tok u text now rand (inv_register env st u h)
  | mediaMsg tok u mt tn mid now =>
    exact inv_non_text _ tok u mt tn mid now (inv_register env st u h)
  | follow u => exact inv_register env st u h
  | timerFire u now => exact inv_session_timeout st u now h
  | trpcCreate u d now => exact inv_trpc_create env st u d now h
  | trpcAddChatLog u d mt m now => exact inv_trpc_addChatLog st u d mt m now h
  | trpcSubmit u now => exact inv_trpc_submit st u now h

theorem inv_initState : Inv initState := by
  constructor
  · intro u
    simp [initState, countOpen]
  · simp [initState, IdsNodup]

theorem inv_runEvents (env : Env) (evs : List Event) :
    Inv (runEvents env evs) := by
  unfold runEvents
  have : ∀ (l : List Event) (st : SysState), Inv st → Inv (l.foldl (step env) st) := by
    intro l
    induction l with
    | nil => intro st h; exact h
    | cons e rest ih =>
      intro st h
      exact ih _ (inv_step env st e h)
  exact this evs initState inv_initState

theorem addChatLog_of_lt {s : Session} {e : ChatEntry}
    (h : s.chat_logs.length < 500) :
    addChatLog s e = Except.ok { s with chat_logs := s.chat_logs ++ [e] } := by
  unfold addChatLog
  rw [if_neg (by omega)]

theorem idsNodup_append_fresh {l : List Session} {s : Session}
    (hids : IdsNodup l) (hfresh : s.sessionId ∉ l.map (fun t => t.sessionId)) :
    IdsNodup (l ++ [s]) := by
  unfold IdsNodup at hids ⊢
  rw [List.map_append]
  simp only [List.map_cons, List.map_nil]
  rw [List.nodup_append]
  refine ⟨hids, List.nodup_singleton _, ?_⟩
  intro a ha hb
  rcases List.mem_singleton.mp hb with rfl
  exact hfresh ha

theorem find_double_update {l : List Session} {s0 s1 s2 : Session} {sid : String}
    (hids : IdsNodup l) (hmem : s0 ∈ l) (hsid : s0.sessionId = sid)
    (h1 : s1.sessionId = s0.sessionId) (h2 : s2.sessionId = s0.sessionId) :
    (updateSession (updateSession l s1) s2).find?
      (fun t => decide (t.sessionId = sid)) = some s2 := by
  subst hsid
  have ha := find_id_update hids hmem h1
  have hb := find_id_update (idsNodup_update _ hids)
    (List.mem_of_find?_eq_some ha) (h2.trans h1.symm)
  simp only [h1] at hb
  exact hb

theorem statusOf_update {l : List Session} {s s' : Session}
    (hids : IdsNodup l) (hmem : s ∈ l) (hid : s'.sessionId = s.sessionId) :
    statusOf (updateSession l s') s.sessionId = some s'.status := by
  unfold statusOf
  rw [find_id_update hids hmem hid]
  rfl

theorem mem_update_self {l : List Session} {s s' : Session}
    (hids : IdsNodup l) (hmem : s ∈ l) (hid : s'.sessionId = s.sessionId) :
    s' ∈ updateSession l s' :=
  List.mem_of_find?_eq_some (find_id_update hids hmem hid)

theorem find?_append_right {α : Type} {p : α → Bool} {l : List α} {t : α}
    (h : l.find? p = none) (hp : p t = true) : (l ++ [t]).find? p = some t := by
  induction l with
  | nil => exact List.find?_cons_of_pos _ hp
  | cons x xs ih =>
    rw [List.find?_eq_none] at h
    have hx : ¬ p x = true := h x (List.mem_cons_self _ _)
    rw [List.cons_append]
    rw [List.find?_cons_of_neg _ hx]
    exact ih (List.find?_eq_none.mpr (fun y hy => h y (List.mem_cons_of_mem _ hy)))

theorem filter_length_one_of_find {α : Type} {p : α → Bool} {l : List α} {t : α}
    (h : l.find? p = some t) (hle : (l.filter p).length ≤ 1) :
    (l.filter p).length = 1 := by
  have hmem : t ∈ l.filter p :=
    List.mem_filter.mpr ⟨List.mem_of_find?_eq_some h, List.find?_some h⟩
  have : 0 < (l.filter p).length := List.length_pos.mpr (List.ne_nil_of_mem hmem)
  omega

theorem insertTag_of_empty {l : List AITag} {t : AITag} {sid : String}
    (hsid : t.complaint_session_id = sid)
    (h : (l.filter (fun x => decide (x.complaint_session_id = sid))).length = 0) :
    insertTag l t = Except.ok (l ++ [t]) := by
  unfold insertTag
  subst hsid
  rw [if_pos h]

/-! ## Concrete fixtures for witnesses and counterexamples -/

/-- A concrete oracle environment. -/
def env0 : Env :=
  { sessionIds := fun n => "sess-" ++ toString n
    complaintIds := fun n => "CMP-" ++ toString n
    profileName := fun _ => "Somchai" }

/-- State right after user `u1` sent `/complain` to the empty system. -/
def stStart : SysState := (start_complaint_session env0 initState "tok1" "u1" 0).1

/-- `stStart` after `u1` additionally sent one free-text detail message. -/
def stWithText : SysState :=
  (process_text_message env0 stStart "tok2" "u1"
    "my manager assigns unpaid overtime" 60000 0).1

/-- State right after a session was created through the tRPC `create`
mutation alone (transcript = the single seeded `/complain` entry). -/
def stTrpcOnly : SysState := trpc_create env0 initState "u2" none 0

/-! ## Claim theorems -/

/-- C2: in every reachable state of the system, each user has at most
one complaint session with status `open`; the start paths
(`start_complaint_session`, `createNewSession`, `complaint.create`)
reuse the existing open session and never create a second one. -/
theorem C2_at_most_one_open_session (env : Env) (st : SysState)
    (h : Reachable env st) (u : String) : countOpen u st.sessions ≤ 1 := by
  obtain ⟨evs, rfl⟩ := h
  exact (inv_runEvents env evs).1 u

/-- Witness for C2: two rapid `/complain` commands from the same user
leave that user with at most one open session. -/
theorem C2_at_most_one_open_session_witness :
    countOpen "u1" (runEvents env0
      [Event.textMsg "t1" "u1" "/complain" 0 0,
       Event.textMsg "t2" "u1" "/complain" 1 0]).sessions ≤ 1 :=
  C2_at_most_one_open_session env0 _ ⟨_, rfl⟩ "u1"

/-- C3 (code evaluation): on the session produced by a bare `/complain`
— whose transcript has zero user-authored content entries — the
10-minute timeout handler auto-submits (with a system timeout note and
a push notification) instead of cancelling, because its guard is
`chat_logs.length > 1` and the transcript already holds three entries. -/
theorem C3_timeout_zero_user_content_submits :
    (stStart.sessions.map userContentCount = [0]) ∧
    ((handle_session_timeout stStart "u1" 600000).1.sessions.map
        (fun s => s.status) = [Status.submitted]) ∧
    ((handle_session_timeout stStart "u1" 600000).2
        = [Effect.push "u1" (timeoutPushMsg "CMP-0")]) ∧
    ((handle_session_timeout stStart "u1" 600000).1.sessions.map
        (fun s => (s.chat_logs.filter
          (fun e => decide (e.message_type = MsgType.timeout))).length) = [1]) :=
  ⟨rfl, rfl, rfl, rfl⟩

/-- C7 (code evaluation): the explicit submit paths — the LINE webhook
handler and the tRPC `complaint.submit` mutation — set the session to
`submitted` and emit only the confirmation reply; neither touches the
analysis collection nor invokes the AI tagging service, so no
enrichment is triggered by submission. -/
theorem C7_submit_triggers_no_enrichment :
    ((submit_complaint_session stWithText "tok3" "u1" 120000).1.tags = []) ∧
    ((submit_complaint_session stWithText "tok3" "u1" 120000).1.sessions.map
        (fun s => s.status) = [Status.submitted]) ∧
    ((submit_complaint_session stWithText "tok3" "u1" 120000).2
        = [Effect.reply "tok3" (submitMsg "CMP-0")]) ∧
    ((trpc_submit stWithText "u1" 120000).2.tags = []) :=
  ⟨rfl, rfl, rfl, rfl⟩

/-- C1 (counterexample): on an open session whose transcript has no
user-authored content beyond the initiating command, the webhook
`/submit` is not rejected: it submits the session and sends the
success reply, and even the tRPC submit succeeds there (its guard is
transcript length, already 3 after a webhook start). -/
theorem C1_counterexample_submit_accepts_empty :
    (stStart.sessions.map userContentCount = [0]) ∧
    ((findActiveSession "u1" stStart.sessions).isSome = true) ∧
    ((submit_complaint_session stStart "tok9" "u1" 60000).1.sessions.map
        (fun s => s.status) = [Status.submitted]) ∧
    ((submit_complaint_session stStart "tok9" "u1" 60000).2
        = [Effect.reply "tok9" (submitMsg "CMP-0")]) ∧
    ((trpc_submit stStart "u1" 60000).1 = TrpcSubmitResult.success "CMP-0") :=
  ⟨rfl, rfl, rfl, rfl, rfl⟩

/-- C1 (amended): the webhook `/submit` on an open session always
succeeds — it submits the session and replies with the confirmation —
regardless of user content; the insufficient-detail rejection exists
only in the tRPC `complaint.submit` mutation, which returns an
`Insufficient complaint details` error and leaves the store unchanged
exactly when the transcript has at most one entry, and otherwise
submits. -/
theorem C1_submit_behavior :
    (∀ (st : SysState) (tok u : String) (now : Nat) (s : Session),
      findActiveSession u st.sessions = some s →
      s.chat_logs.length < 500 →
      IdsNodup st.sessions →
      statusOf (submit_complaint_session st tok u now).1.sessions s.sessionId
        = some Status.submitted ∧
      Effect.reply tok (submitMsg s.complaint_id)
        ∈ (submit_complaint_session st tok u now).2) ∧
    (∀ (st : SysState) (u : String) (now : Nat) (s : Session),
      findActiveSession u st.sessions = some s →
      s.chat_logs.length ≤ 1 →
      trpc_submit st u now = (TrpcSubmitResult.insufficient, st)) ∧
    (∀ (st : SysState) (u : String) (now : Nat) (s : Session),
      findActiveSession u st.sessions = some s →
      1 < s.chat_logs.length →
      IdsNodup st.sessions →
      (trpc_submit st u now).1 = TrpcSubmitResult.success s.complaint_id ∧
      statusOf (trpc_submit st u now).2.sessions s.sessionId
        = some Status.submitted) := by
  refine ⟨?_, ?_, ?_⟩
  · intro st tok u now s hf hlen hids
    have hmem := (mem_of_findActive hf).1
    have hok : addChatLog s ⟨now, Direction.user, MsgType.command, "/submit"⟩
        = Except.ok { s with chat_logs :=
            s.chat_logs ++ [⟨now, Direction.user, MsgType.command, "/submit"⟩] } := by
      unfold addChatLog
      rw [if_neg (by omega)]
    unfold submit_complaint_session
    rw [hf]
    dsimp only
    rw [hok]
    dsimp only
    set s2 : Session := { s with chat_logs :=
      s.chat_logs ++ [⟨now, Direction.user, MsgType.command, "/submit"⟩] } with hs2
    have hid3 : (submitSession s2 now).sessionId = s.sessionId := rfl
    cases h2 : addChatLog (submitSession s2 now)
        ⟨now, Direction.bot, MsgType.text, submitMsg s.complaint_id⟩ with
    | error e =>
      dsimp only
      refine ⟨?_, List.mem_cons_self _ _⟩
      exact statusOf_update hids hmem hid3
    | ok s4 =>
      dsimp only
      obtain ⟨hid4, _, hs4, _⟩ := addChatLog_ok h2
      constructor
      · have h5 := statusOf_update (idsNodup_update (submitSession s2 now) hids)
          (mem_update_self hids hmem hid3) hid4
        have h6 : statusOf
            (updateSession (updateSession st.sessions (submitSession s2 now)) s4)
            s.sessionId = some s4.status := by
          rw [← hid3]
          exact h5
        rw [h6, hs4]
        rfl
      · exact List.mem_cons_self _ _
  · intro st u now s hf hlen
    unfold trpc_submit
    rw [hf]
    dsimp only
    rw [if_pos hlen]
  · intro st u now s hf hlen hids
    have hmem := (mem_of_findActive hf).1
    unfold trpc_submit
    rw [hf]
    dsimp only
    rw [if_neg (by omega)]
    exact ⟨rfl, statusOf_update hids hmem rfl⟩

/-- Witness for C1 (amended), at the concrete states built from the
fixtures: webhook submit of the just-started session succeeds; tRPC
submit of a create-only session (transcript length 1) is rejected with
the store unchanged; tRPC submit after a user text succeeds. -/
theorem C1_submit_behavior_witness :
    (statusOf (submit_complaint_session stStart "tokA" "u1" 60000).1.sessions
        "sess-0" = some Status.submitted ∧
      Effect.reply "tokA" (submitMsg "CMP-0")
        ∈ (submit_complaint_session stStart "tokA" "u1" 60000).2) ∧
    (trpc_submit stTrpcOnly "u2" 5 = (TrpcSubmitResult.insufficient, stTrpcOnly)) ∧
    ((trpc_submit stWithText "u1" 10).1 = TrpcSubmitResult.success "CMP-0" ∧
      statusOf (trpc_submit stWithText "u1" 10).2.sessions "sess-0"
        = some Status.submitted) :=
  ⟨C1_submit_behavior.1 stStart "tokA" "u1" 60000 _ rfl (by decide) (by decide),
   C1_submit_behavior.2.1 stTrpcOnly "u2" 5 _ rfl (by decide),
   C1_submit_behavior.2.2 stWithText "u1" 10 _ rfl (by decide) (by decide)⟩

/-- C9 (counterexample): a second `/complain` while the session is open
replies with the existing `complaintId` and creates nothing, but does
not re-arm the inactivity timer: the armed deadline stays at the one
set at session start (600000) instead of `now + 10 minutes`. -/
theorem C9_counterexample_no_rearm :
    ((start_complaint_session env0 stStart "tok2" "u1" 300000).1.timers
        = [("u1", 600000)]) ∧
    ((start_complaint_session env0 stStart "tok2" "u1" 300000).1.sessions
        = stStart.sessions) ∧
    ((start_complaint_session env0 stStart "tok2" "u1" 300000).2
        = [Effect.reply "tok2" (existingSessionMsg "CMP-0")]) ∧
    (300000 + timeoutMs ≠ 600000) :=
  ⟨rfl, rfl, rfl, by decide⟩

/-- C9 (amended): a start command while the user's session is open is a
no-op on the whole handler state — sessions, timers, employees, and
counters are all unchanged, so no new session or `complaintId` is
created and the timer is not re-armed — and the only effect is a reply
referencing the existing session's `complaintId`. -/
theorem C9_start_with_open_session_noop (env : Env) (st : SysState)
    (tok u : String) (now : Nat) (s : Session)
    (hf : findActiveSession u st.sessions = some s) :
    start_complaint_session env st tok u now
      = (st, [Effect.reply tok (existingSessionMsg s.complaint_id)]) := by
  unfold start_complaint_session
  rw [hf]

/-- Witness for C9 (amended) at the started fixture state. -/
theorem C9_start_with_open_session_noop_witness :
    start_complaint_session env0 stStart "tok2" "u1" 300000
      = (stStart, [Effect.reply "tok2" (existingSessionMsg "CMP-0")]) :=
  C9_start_with_open_session_noop env0 stStart "tok2" "u1" 300000 _ rfl

/-- C10: when a start command creates a session (no open session, fresh
generated `_id`), the stored transcript holds the seeded `/complain`
command entry from `createNewSession`, a second `/complain` command
entry appended by the webhook handler, and the bot acknowledgment — so
its length is 3, strictly greater than 1, with no user-provided
detail. -/
theorem C10_started_transcript_shape (env : Env) (st : SysState)
    (tok u : String) (now : Nat)
    (hf : findActiveSession u st.sessions = none)
    (hfresh : env.sessionIds st.counter ∉ st.sessions.map (fun t => t.sessionId))
    (hids : IdsNodup st.sessions) :
    ((start_complaint_session env st tok u now).1.sessions.find?
        (fun t => decide (t.sessionId = env.sessionIds st.counter))).map
      (fun t => t.chat_logs.map (fun e => (e.direction, e.message_type, e.message)))
    = some [(Direction.user, MsgType.command, "/complain"),
            (Direction.user, MsgType.command, "/complain"),
            (Direction.bot, MsgType.text,
              startMsg (complaintIdLoop st.sessions env.complaintIds st.counter 5))] := by
  have hlen0 : (st.sessions.filter
      (fun t => decide (t.sessionId = env.sessionIds st.counter))).length = 0 := by
    rw [List.length_eq_zero, List.filter_eq_nil_iff]
    intro a ha hp
    exact hfresh (List.mem_map.mpr ⟨a, ha, by simpa using hp⟩)
  unfold start_complaint_session
  rw [hf]
  dsimp only
  unfold createNewSession
  rw [hf]
  dsimp only
  unfold insertSession
  rw [if_pos hlen0]
  dsimp only
  rw [if_neg (by decide)]
  rw [addChatLog_of_lt (by simp)]
  dsimp only
  rw [addChatLog_of_lt (by simp)]
  dsimp only
  have hids1 : IdsNodup (st.sessions ++
      [{ sessionId := env.sessionIds st.counter
         complaint_id := complaintIdLoop st.sessions env.complaintIds st.counter 5
         user_id := u
         status := Status.open'
         start_time := now
         end_time := none
         department := ((st.employees.find? (fun e => decide (e.id = u))).map
           (fun e => e.department)).getD none
         chat_logs := [⟨now, Direction.user, MsgType.command, "/complain"⟩] }]) :=
    idsNodup_append_fresh hids hfresh
  have hmem0 := List.mem_append_right st.sessions
    (List.mem_singleton.mpr (rfl (a :=
      ({ sessionId := env.sessionIds st.counter
         complaint_id := complaintIdLoop st.sessions env.complaintIds st.counter 5
         user_id := u
         status := Status.open'
         start_time := now
         end_time := none
         department := ((st.employees.find? (fun e => decide (e.id = u))).map
           (fun e => e.department)).getD none
         chat_logs := [⟨now, Direction.user, MsgType.command, "/complain"⟩] } : Session))))
  refine Eq.trans (congrArg (Option.map (fun t =>
    List.map (fun e => (e.direction, e.message_type, e.message)) t.chat_logs))
    (find_double_update hids1 hmem0 rfl ?_ ?_)) rfl <;> rfl

/-- C6: enrichment is idempotent.  If the store keeps at most one
analysis record per session (its unique index) and a call to
`processComplaintSession` succeeds, then a second call returns the same
summary with the store unchanged and zero provider calls — the existing
record is found before any provider call — and exactly one analysis
record for the session exists. -/
theorem C6_enrichment_idempotent (aienv : AIEnv) (st : SysState) (sid : String)
    (huniq : (st.tags.filter
      (fun t => decide (t.complaint_session_id = sid))).length ≤ 1)
    (hok : ∃ summary, (processComplaintSession aienv st sid).1 = Except.ok summary) :
    processComplaintSession aienv (processComplaintSession aienv st sid).2.1 sid
      = ((processComplaintSession aienv st sid).1,
         (processComplaintSession aienv st sid).2.1, 0) ∧
    ((processComplaintSession aienv st sid).2.1.tags.filter
      (fun t => decide (t.complaint_session_id = sid))).length = 1 := by
  obtain ⟨summary, hsum⟩ := hok
  cases hs : st.sessions.find? (fun s => decide (s.sessionId = sid)) with
  | none =>
    unfold processComplaintSession at hsum
    rw [hs] at hsum
    simp at hsum
  | some csession =>
    cases ht : st.tags.find? (fun t => decide (t.complaint_session_id = sid)) with
    | some existing =>
      have hp : processComplaintSession aienv st sid
          = (Except.ok (getSummaryForDashboard existing), st, 0) := by
        unfold processComplaintSession
        rw [hs]
        dsimp only
        rw [ht]
      rw [hp]
      exact ⟨hp, filter_length_one_of_find ht huniq⟩
    | none =>
      have hfilter0 : (st.tags.filter
          (fun t => decide (t.complaint_session_id = sid))).length = 0 := by
        rw [List.length_eq_zero, List.filter_eq_nil_iff]
        intro a ha
        have := List.find?_eq_none.mp ht a ha
        simpa using this
      cases hg : aienv.generate (createAnalysisPrompt csession
          (st.employees.find? (fun e => decide (e.id = csession.user_id)))) with
      | error e =>
        unfold processComplaintSession at hsum
        rw [hs] at hsum
        dsimp only at hsum
        rw [ht] at hsum
        dsimp only at hsum
        rw [hg] at hsum
        simp at hsum
      | ok text =>
        cases hj : aienv.parseJson (stripCodeFence text) with
        | none =>
          unfold processComplaintSession at hsum
          rw [hs] at hsum
          dsimp only at hsum
          rw [ht] at hsum
          dsimp only at hsum
          rw [hg] at hsum
          dsimp only at hsum
          rw [hj] at hsum
          simp at hsum
        | some parsed =>
          cases hv : validateAIResponse parsed with
          | error e =>
            unfold processComplaintSession at hsum
            rw [hs] at hsum
            dsimp only at hsum
            rw [ht] at hsum
            dsimp only at hsum
            rw [hg] at hsum
            dsimp only at hsum
            rw [hj] at hsum
            dsimp only at hsum
            rw [hv] at hsum
            simp at hsum
          | ok validated =>
            have hp : processComplaintSession aienv st sid
                = (Except.ok (getSummaryForDashboard (buildTag csession
                    (st.employees.find? (fun e => decide (e.id = csession.user_id)))
                    sid validated)),
                   { st with tags := st.tags ++ [buildTag csession
                    (st.employees.find? (fun e => decide (e.id = csession.user_id)))
                    sid validated] }, 1) := by
              unfold processComplaintSession
              rw [hs]
              dsimp only
              rw [ht]
              dsimp only
              rw [hg]
              dsimp only
              rw [hj]
              dsimp only
              rw [hv]
              dsimp only
              rw [insertTag_of_empty rfl hfilter0]
            rw [hp]
            dsimp only
            constructor
            · unfold processComplaintSession
              dsimp only
              rw [hs]
              dsimp only
              rw [find?_append_right ht (decide_eq_true rfl)]
            · rw [List.filter_append]
              rw [List.length_append,
                List.length_eq_zero.mp hfilter0]
              rw [List.filter_cons]
              rw [if_pos]
              · simp
              · exact decide_eq_true rfl

/-- A concrete enrichment environment: the provider returns an empty
JSON object. -/
def aienv0 : AIEnv :=
  { generate := fun _ => Except.ok "\x7b\x7d"
    parseJson := fun _ => some (JSVal.obj []) }

/-- Witness for C6: enrichment of the submitted fixture session runs
once, and the second invocation returns the stored record with no
provider call. -/
theorem C6_enrichment_idempotent_witness :
    processComplaintSession aienv0
        (processComplaintSession aienv0 stWithText "sess-0").2.1 "sess-0"
      = ((processComplaintSession aienv0 stWithText "sess-0").1,
         (processComplaintSession aienv0 stWithText "sess-0").2.1, 0) ∧
    ((processComplaintSession aienv0 stWithText "sess-0").2.1.tags.filter
      (fun t => decide (t.complaint_session_id = "sess-0"))).length = 1 :=
  C6_enrichment_idempotent aienv0 stWithText "sess-0" (by decide) ⟨_, rfl⟩

/-- C4 (counterexample): the sanitizer is not total on arbitrary parsed
input: a `null` response throws (property access on null), a nullish
keywords element throws inside the map callback, and a truthy
non-numeric `sentiment_score` (`"abc"`) coerces to `NaN`, which is
returned and satisfies no bound. -/
theorem C4_counterexample_sanitizer_unsafe :
    (validateAIResponse JSVal.jnull = Except.error ()) ∧
    ((validateAIResponse (JSVal.obj [("sentiment_analysis",
        JSVal.obj [("sentiment_score", JSVal.str "abc")])])).map
      (fun v => v.sentiment_analysis.sentiment_score) = Except.ok none) ∧
    (validateAIResponse (JSVal.obj [("key_phrases",
        JSVal.obj [("keywords", JSVal.arr [JSVal.jnull])])]) = Except.error ()) :=
  ⟨rfl, rfl, rfl⟩

/-- C4 (amended): for any non-nullish response whose three clampable
numeric fields are absent, falsy, or coerce to actual numbers (not
`NaN`), and whose keyword elements are non-nullish, the sanitizer
returns without throwing a record satisfying every documented bound. -/
theorem C4_sanitizer_bounds (response : JSVal)
    (h1 : response ≠ JSVal.undef) (h2 : response ≠ JSVal.jnull)
    (hscore : numSafe (fieldOf response "sentiment_analysis" "sentiment_score"))
    (hconf : numSafe (fieldOf response "sentiment_analysis" "confidence_level"))
    (hurg : numSafe (fieldOf response "issue_classification" "urgency_score"))
    (hkw : ∀ xs, fieldOf response "key_phrases" "keywords" = JSVal.arr xs →
      ∀ k ∈ xs.take 50, k ≠ JSVal.undef ∧ k ≠ JSVal.jnull) :
    ∃ r, validateAIResponse response = Except.ok r ∧ BoundsOK r := by
  have hkex : ∃ ys, keywordsOf (jsOpt (jsOpt response "key_phrases") "keywords")
      = Except.ok ys ∧ ys.length ≤ 50 ∧
      ∀ y ∈ ys, y.word.length ≤ 100 ∧ 1 ≤ y.frequency ∧
        0 ≤ y.relevance_score ∧ y.relevance_score ≤ 1 := by
    unfold keywordsOf
    cases hcase : jsOpt (jsOpt response "key_phrases") "keywords" with
    | arr xs =>
      obtain ⟨ys, hok, hlen, hbd⟩ := mapM_sanitize_ok (hkw xs hcase)
      exact ⟨ys, hok, by rw [hlen]; exact List.length_take_le _ _, hbd⟩
    | undef => exact ⟨[], rfl, Nat.zero_le _, fun y hy => absurd hy (List.not_mem_nil y)⟩
    | jnull => exact ⟨[], rfl, Nat.zero_le _, fun y hy => absurd hy (List.not_mem_nil y)⟩
    | bool b => exact ⟨[], rfl, Nat.zero_le _, fun y hy => absurd hy (List.not_mem_nil y)⟩
    | nan => exact ⟨[], rfl, Nat.zero_le _, fun y hy => absurd hy (List.not_mem_nil y)⟩
    | num q => exact ⟨[], rfl, Nat.zero_le _, fun y hy => absurd hy (List.not_mem_nil y)⟩
    | str s => exact ⟨[], rfl, Nat.zero_le _, fun y hy => absurd hy (List.not_mem_nil y)⟩
    | obj fs => exact ⟨[], rfl, Nat.zero_le _, fun y hy => absurd hy (List.not_mem_nil y)⟩
  obtain ⟨ys, hkws, hyslen, hysbd⟩ := hkex
  refine ⟨_, validateAIResponse_ok_char h1 h2 hkws, ?_⟩
  obtain ⟨qs, hqs, hqs1, hqs2⟩ := clampCoerce_of_numSafe (-1) 1 0
    (by norm_num) hscore
  obtain ⟨qc, hqc, hqc1, hqc2⟩ := clampCoerce_of_numSafe 0 1 (1 / 2)
    (by norm_num) hconf
  obtain ⟨qu, hqu, hqu1, hqu2⟩ := clampCoerce_of_numSafe 1 10 5
    (by norm_num) hurg
  refine ⟨pickEnum_mem _ _ _ (by decide), ?_, ?_, pickEnum_mem _ _ _ (by decide),
    ?_, ?_, pickEnum_mem _ _ _ (by decide), ?_, hyslen, hysbd, ?_, ?_, ?_, ?_,
    jsSubstring_length_le _ _, ?_, ?_⟩
  · show inRange (-1) 1 (clampCoerce (-1) 1 _)
    rw [hqs]
    exact ⟨hqs1, hqs2⟩
  · show inRange 0 1 (clampCoerce 0 1 _)
    rw [hqc]
    exact ⟨hqc1, hqc2⟩
  · show (match fieldOf response "issue_classification" "secondary_categories" with
      | JSVal.arr xs =>
        (xs.take 3).filterMap (fun v => match v with
          | JSVal.str s => if validCategories.contains s then some s else none
          | _ => none)
      | _ => ([] : List String)).length ≤ 3
    split
    next xs =>
      exact le_trans (List.length_filterMap_le _ _) (List.length_take_le _ _)
    next => exact Nat.zero_le _
  · show ∀ c ∈ (match fieldOf response "issue_classification" "secondary_categories" with
      | JSVal.arr xs =>
        (xs.take 3).filterMap (fun v => match v with
          | JSVal.str s => if validCategories.contains s then some s else none
          | _ => none)
      | _ => ([] : List String)), c ∈ validCategories
    split
    next xs =>
      intro c hc
      obtain ⟨v, _, hv⟩ := List.mem_filterMap.mp hc
      cases v with
      | str s =>
        dsimp only at hv
        by_cases hcs : validCategories.contains s
        · rw [if_pos hcs] at hv
          cases hv
          exact List.mem_of_elem_eq_true hcs
        · rw [if_neg hcs] at hv
          cases hv
      | undef => exact Option.noConfusion hv
      | jnull => exact Option.noConfusion hv
      | bool b => exact Option.noConfusion hv
      | nan => exact Option.noConfusion hv
      | num q => exact Option.noConfusion hv
      | arr l => exact Option.noConfusion hv
      | obj fs => exact Option.noConfusion hv
    next =>
      intro c hc
      exact absurd hc (List.not_mem_nil c)
  · show inRange 1 10 (clampCoerce 1 10 _)
    rw [hqu]
    exact ⟨hqu1, hqu2⟩
  · show (match fieldOf response "key_phrases" "key_phrases" with
      | JSVal.arr xs => (xs.take 20).map (fun p => jsSubstring (jsToString p) 100)
      | _ => ([] : List String)).length ≤ 20
    split
    next xs =>
      rw [List.length_map]
      exact List.length_take_le _ _
    next => exact Nat.zero_le _
  · show ∀ p ∈ (match fieldOf response "key_phrases" "key_phrases" with
      | JSVal.arr xs => (xs.take 20).map (fun p => jsSubstring (jsToString p) 100)
      | _ => ([] : List String)), p.length ≤ 100
    split
    next xs =>
      intro p hp
      obtain ⟨v, _, hv⟩ := List.mem_map.mp hp
      rw [← hv]
      exact jsSubstring_length_le _ _
    next =>
      intro p hp
      exact absurd hp (List.not_mem_nil p)
  · show (match fieldOf response "key_phrases" "emotional_indicators" with
      | JSVal.arr xs => (xs.take 20).map (fun e => jsSubstring (jsToString e) 50)
      | _ => ([] : List String)).length ≤ 20
    split
    next xs =>
      rw [List.length_map]
      exact List.length_take_le _ _
    next => exact Nat.zero_le _
  · show ∀ p ∈ (match fieldOf response "key_phrases" "emotional_indicators" with
      | JSVal.arr xs => (xs.take 20).map (fun e => jsSubstring (jsToString e) 50)
      | _ => ([] : List String)), p.length ≤ 50
    split
    next xs =>
      intro p hp
      obtain ⟨v, _, hv⟩ := List.mem_map.mp hp
      rw [← hv]
      exact jsSubstring_length_le _ _
    next =>
      intro p hp
      exact absurd hp (List.not_mem_nil p)
  · show (match jsOpt response "recommended_actions" with
      | JSVal.arr xs => (xs.take 5).map (fun a => jsSubstring (jsToString a) 200)
      | _ => ([] : List String)).length ≤ 5
    split
    next xs =>
      rw [List.length_map]
      exact List.length_take_le _ _
    next => exact Nat.zero_le _
  · show ∀ a ∈ (match jsOpt response "recommended_actions" with
      | JSVal.arr xs => (xs.take 5).map (fun a => jsSubstring (jsToString a) 200)
      | _ => ([] : List String)), a.length ≤ 200
    split
    next xs =>
      intro a ha
      obtain ⟨v, _, hv⟩ := List.mem_map.mp ha
      rw [← hv]
      exact jsSubstring_length_le _ _
    next =>
      intro a ha
      exact absurd ha (List.not_mem_nil a)

/-- Witness for C4 (amended): a response carrying only a summary field
sanitizes successfully with every bound holding. -/
theorem C4_sanitizer_bounds_witness :
    ∃ r, validateAIResponse (JSVal.obj [("ai_summary", JSVal.str "ok")])
      = Except.ok r ∧ BoundsOK r :=
  C4_sanitizer_bounds _ (fun h => JSVal.noConfusion h) (fun h => JSVal.noConfusion h)
    (Or.inl rfl) (Or.inl rfl) (Or.inl rfl)
    (fun _ h => JSVal.noConfusion h)

/-- The non-integral rational 57/10. -/
def qBad : ℚ := Rat.mk' 57 10 (by norm_num) (by norm_num)

/-- C5 (counterexample): the sanitizer does not coerce `urgency_score`
to an integer: the in-range non-integral input `5.7` is returned
unchanged (clamped only), with denominator 10. -/
theorem C5_counterexample_urgency_not_integer :
    ((validateAIResponse (JSVal.obj [("issue_classification",
        JSVal.obj [("urgency_score", JSVal.num qBad)])])).map
      (fun v => v.issue_classification.urgency_score)
      = Except.ok (some qBad)) ∧
    (qBad.den ≠ 1) :=
  ⟨rfl, by decide⟩

/-- C5 (amended): on every successful run the sanitizer coerces each
field into the fixed schema — enum fields keep a valid string and fall
back to `neutral`/`other`/`medium` otherwise; the three numeric fields
are exactly clamped (sentiment to `[-1,1]`, confidence to `[0,1]`,
urgency to `[1,10]` with no integer rounding); arrays are truncated to
3/50/20/20/5 elements and the summary to 1000 characters. -/
theorem C5_sanitizer_coercions (response : JSVal) (r : Validated)
    (h : validateAIResponse response = Except.ok r) :
    (∀ s, fieldOf response "sentiment_analysis" "overall_sentiment" = JSVal.str s →
        s ∈ validSentiments → r.sentiment_analysis.overall_sentiment = s) ∧
    ((¬ ∃ s ∈ validSentiments, fieldOf response "sentiment_analysis"
        "overall_sentiment" = JSVal.str s) →
      r.sentiment_analysis.overall_sentiment = "neutral") ∧
    (∀ s, fieldOf response "issue_classification" "primary_category" = JSVal.str s →
        s ∈ validCategories → r.issue_classification.primary_category = s) ∧
    ((¬ ∃ s ∈ validCategories, fieldOf response "issue_classification"
        "primary_category" = JSVal.str s) →
      r.issue_classification.primary_category = "other") ∧
    (∀ s, fieldOf response "issue_classification" "severity_level" = JSVal.str s →
        s ∈ validSeverities → r.issue_classification.severity_level = s) ∧
    ((¬ ∃ s ∈ validSeverities, fieldOf response "issue_classification"
        "severity_level" = JSVal.str s) →
      r.issue_classification.severity_level = "medium") ∧
    (∀ q, toNumber (jsOr (fieldOf response "sentiment_analysis" "sentiment_score")
        (JSVal.num 0)) = some q →
      r.sentiment_analysis.sentiment_score = some (max (-1) (min 1 q))) ∧
    (∀ q, toNumber (jsOr (fieldOf response "sentiment_analysis" "confidence_level")
        (JSVal.num (1 / 2))) = some q →
      r.sentiment_analysis.confidence_level = some (max 0 (min 1 q))) ∧
    (∀ q, toNumber (jsOr (fieldOf response "issue_classification" "urgency_score")
        (JSVal.num 5)) = some q →
      r.issue_classification.urgency_score = some (max 1 (min 10 q))) ∧
    r.issue_classification.secondary_categories.length ≤ 3 ∧
    (∀ c ∈ r.issue_classification.secondary_categories, c ∈ validCategories) ∧
    r.key_phrases.keywords.length ≤ 50 ∧
    r.key_phrases.key_phrases.length ≤ 20 ∧
    r.key_phrases.emotional_indicators.length ≤ 20 ∧
    r.recommended_actions.length ≤ 5 ∧
    r.ai_summary.length ≤ 1000 := by
  have h1 : response ≠ JSVal.undef := by
    intro he
    subst he
    exact Except.noConfusion (validateAIResponse_throws_nullish.1.symm.trans h)
  have h2 : response ≠ JSVal.jnull := by
    intro he
    subst he
    exact Except.noConfusion (validateAIResponse_throws_nullish.2.symm.trans h)
  cases hkcase : keywordsOf (jsOpt (jsOpt response "key_phrases") "keywords") with
  | error e =>
    exact Except.noConfusion
      ((validateAIResponse_kw_error h1 h2 hkcase).symm.trans h)
  | ok ys =>
    have hchar := validateAIResponse_ok_char h1 h2 hkcase
    have hr := Except.ok.inj (h.symm.trans hchar)
    subst hr
    refine ⟨?_, ?_, ?_, ?_, ?_, ?_, ?_, ?_, ?_, ?_, ?_,
      keywordsOf_length_le hkcase, ?_, ?_, ?_, jsSubstring_length_le _ _⟩
    · intro s hf hm
      have hne : s ≠ "" := by
        intro he
        subst he
        exact absurd hm (by decide)
      exact pickEnum_of_valid _ hf hm hne
    · intro hn
      exact pickEnum_default (by decide) hn
    · intro s hf hm
      have hne : s ≠ "" := by
        intro he
        subst he
        exact absurd hm (by decide)
      exact pickEnum_of_valid _ hf hm hne
    · intro hn
      exact pickEnum_default (by decide) hn
    · intro s hf hm
      have hne : s ≠ "" := by
        intro he
        subst he
        exact absurd hm (by decide)
      exact pickEnum_of_valid _ hf hm hne
    · intro hn
      exact pickEnum_default (by decide) hn
    · intro q hq
      show clampCoerce (-1) 1 (jsOr (fieldOf response "sentiment_analysis"
        "sentiment_score") (JSVal.num 0)) = some (max (-1) (min 1 q))
      unfold clampCoerce
      rw [hq]
    · intro q hq
      show clampCoerce 0 1 (jsOr (fieldOf response "sentiment_analysis"
        "confidence_level") (JSVal.num (1 / 2))) = some (max 0 (min 1 q))
      unfold clampCoerce
      rw [hq]
    · intro q hq
      show clampCoerce 1 10 (jsOr (fieldOf response "issue_classification"
        "urgency_score") (JSVal.num 5)) = some (max 1 (min 10 q))
      unfold clampCoerce
      rw [hq]
    · show (match fieldOf response "issue_classification" "secondary_categories" with
        | JSVal.arr xs =>
          (xs.take 3).filterMap (fun v => match v with
            | JSVal.str s => if validCategories.contains s then some s else none
            | _ => none)
        | _ => ([] : List String)).length ≤ 3
      split
      next xs =>
        exact le_trans (List.length_filterMap_le _ _) (List.length_take_le _ _)
      next => exact Nat.zero_le _
    · show ∀ c ∈ (match fieldOf response "issue_classification"
          "secondary_categories" with
        | JSVal.arr xs =>
          (xs.take 3).filterMap (fun v => match v with
            | JSVal.str s => if validCategories.contains s then some s else none
            | _ => none)
        | _ => ([] : List String)), c ∈ validCategories
      split
      next xs =>
        intro c hc
        obtain ⟨v, _, hv⟩ := List.mem_filterMap.mp hc
        cases v with
        | str s =>
          dsimp only at hv
          by_cases hcs : validCategories.contains s
          · rw [if_pos hcs] at hv
            cases hv
            exact List.mem_of_elem_eq_true hcs
          · rw [if_neg hcs] at hv
            cases hv
        | undef => exact Option.noConfusion hv
        | jnull => exact Option.noConfusion hv
        | bool b => exact Option.noConfusion hv
        | nan => exact Option.noConfusion hv
        | num q => exact Option.noConfusion hv
        | arr l => exact Option.noConfusion hv
        | obj fs => exact Option.noConfusion hv
      next =>
        intro c hc
        exact absurd hc (List.not_mem_nil c)
    · show (match fieldOf response "key_phrases" "key_phrases" with
        | JSVal.arr xs => (xs.take 20).map (fun p => jsSubstring (jsToString p) 100)
        | _ => ([] : List String)).length ≤ 20
      split
      next xs =>
        rw [List.length_map]
        exact List.length_take_le _ _
      next => exact Nat.zero_le _
    · show (match fieldOf response "key_phrases" "emotional_indicators" with
        | JSVal.arr xs => (xs.take 20).map (fun e => jsSubstring (jsToString e) 50)
        | _ => ([] : List String)).length ≤ 20
      split
      next xs =>
        rw [List.length_map]
        exact List.length_take_le _ _
      next => exact Nat.zero_le _
    · show (match jsOpt response "recommended_actions" with
        | JSVal.arr xs => (xs.take 5).map (fun a => jsSubstring (jsToString a) 200)
        | _ => ([] : List String)).length ≤ 5
      split
      next xs =>
        rw [List.length_map]
        exact List.length_take_le _ _
      next => exact Nat.zero_le _

/-- A response with a valid sentiment label and an out-of-range score. -/
def v0 : JSVal := JSVal.obj [("sentiment_analysis", JSVal.obj
  [("overall_sentiment", JSVal.str "positive"), ("sentiment_score", JSVal.num 2)])]

/-- Witness for C5 (amended): on `v0` the valid label survives, the
score 2 clamps to 1, the missing category falls back to `other`, and
the missing urgency defaults to 5. -/
theorem C5_sanitizer_coercions_witness :
    ∃ r, validateAIResponse v0 = Except.ok r ∧
      r.sentiment_analysis.overall_sentiment = "positive" ∧
      r.sentiment_analysis.sentiment_score = some 1 ∧
      r.issue_classification.primary_category = "other" ∧
      r.issue_classification.urgency_score = some 5 := by
  obtain ⟨ha, _, _, hd, _, _, hg, _, hi, _⟩ := C5_sanitizer_coercions v0 _ rfl
  refine ⟨_, rfl, ha "positive" rfl (by decide), ?_, ?_, ?_⟩
  · exact (hg 2 rfl).trans (by norm_num)
  · refine hd ?_
    rintro ⟨s, _, hs⟩
    exact JSVal.noConfusion hs
  · exact (hi 5 rfl).trans (by norm_num)

/-- A submitted session whose transcript ends with bot text `bot A`. -/
def sessA : Session :=
  { sessionId := "s1", complaint_id := "CMP-X", user_id := "u1"
    status := Status.submitted, start_time := 0, end_time := some 60000
    department := none
    chat_logs := [⟨0, Direction.user, MsgType.command, "/complain"⟩,
      ⟨1, Direction.user, MsgType.text, "late pay"⟩,
      ⟨2, Direction.bot, MsgType.text, "bot A"⟩] }

/-- `sessA` with only the bot text changed. -/
def sessB : Session :=
  { sessA with chat_logs := [⟨0, Direction.user, MsgType.command, "/complain"⟩,
      ⟨1, Direction.user, MsgType.text, "late pay"⟩,
      ⟨2, Direction.bot, MsgType.text, "bot B"⟩] }

/-- `sessA` with a system note instead of the bot text. -/
def sessC : Session :=
  { sessA with chat_logs := [⟨0, Direction.user, MsgType.command, "/complain"⟩,
      ⟨1, Direction.user, MsgType.text, "late pay"⟩,
      ⟨2, Direction.system, MsgType.text, "note 1"⟩] }

/-- `sessC` with a different system note and command spelling. -/
def sessD : Session :=
  { sessA with chat_logs := [⟨0, Direction.user, MsgType.command, "/COMPLAIN now"⟩,
      ⟨1, Direction.user, MsgType.text, "late pay"⟩,
      ⟨2, Direction.system, MsgType.text, "note 2"⟩] }

set_option maxRecDepth 100000 in
/-- C8 (counterexample): two sessions agreeing on every input the claim
allows the prompt to depend on — complaint identity, duration, entry
count, and the cleaned user-authored text — but differing in a bot text
entry produce different prompts, and the bot-scripted text appears
verbatim in the prompt (its `BOT RESPONSES` section). -/
theorem C8_counterexample_bot_text_in_prompt :
    (promptUserMessages sessA = promptUserMessages sessB) ∧
    (sessA.chat_logs.length = sessB.chat_logs.length) ∧
    (sessA.complaint_id = sessB.complaint_id) ∧
    (sessA.start_time = sessB.start_time) ∧
    (sessA.end_time = sessB.end_time) ∧
    (createAnalysisPrompt sessA none ≠ createAnalysisPrompt sessB none) ∧
    (strIncludes (createAnalysisPrompt sessA none) "bot A" = true) := by
  refine ⟨rfl, rfl, rfl, rfl, rfl, ?_, by decide⟩
  intro h
  have := congrArg (fun s => strIncludes s "bot A") h
  revert this
  decide

/-- C8 (amended): the prompt is a deterministic function of the
complaint identity, session duration, transcript entry count, the
cleaned user-authored text (commands stripped, system and command
entries excluded), and additionally the bot text entries (the prompt's
`BOT RESPONSES` section) — so system notes, command entries, and
non-text entries never influence it beyond the entry count. -/
theorem C8_prompt_determined_by_texts (s1 s2 : Session) (e : Option Employee)
    (hcid : s1.complaint_id = s2.complaint_id)
    (hst : s1.start_time = s2.start_time)
    (het : s1.end_time = s2.end_time)
    (hlen : s1.chat_logs.length = s2.chat_logs.length)
    (huser : promptUserMessages s1 = promptUserMessages s2)
    (hbot : promptBotMessages s1 = promptBotMessages s2) :
    createAnalysisPrompt s1 e = createAnalysisPrompt s2 e := by
  unfold createAnalysisPrompt durationText
  rw [hcid, hst, het, hlen, huser, hbot]

/-- Witness for C8 (amended): sessions differing only in a system note
and in a command entry's spelling yield the identical prompt. -/
theorem C8_prompt_determined_by_texts_witness :
    createAnalysisPrompt sessC none = createAnalysisPrompt sessD none :=
  C8_prompt_determined_by_texts sessC sessD none rfl rfl rfl rfl rfl rfl

/-- Witness for C10 at the empty initial state. -/
theorem C10_started_transcript_shape_witness :
    ((start_complaint_session env0 initState "tok1" "u1" 0).1.sessions.find?
        (fun t => decide (t.sessionId = "sess-0"))).map
      (fun t => t.chat_logs.map (fun e => (e.direction, e.message_type, e.message)))
    = some [(Direction.user, MsgType.command, "/complain"),
            (Direction.user, MsgType.command, "/complain"),
            (Direction.bot, MsgType.text, startMsg "CMP-0")] :=
  C10_started_transcript_shape env0 initState "tok1" "u1" 0 rfl (by decide) (by decide)

end Irc
